import Mathlib

/-!
Shallow embedding of the `WebsocketClient` streaming connection manager of the
bybit-api repository (source: `src/spot-client.ts`, websocket-client document,
together with `src/util/requestUtils.ts`).  The `WsStore` subscription store and
the `signMessage` helper are referenced by the client but their source files are
not part of the repository snapshot; they are modelled from the specification
(spec section 4.1 for the store, section 4.2 for the signer, which is taken as an
abstract function parameter).

Timers are modelled by pending flags: `activePingTimer` is true while the
repeating ping interval is armed, `activePongTimer` is true while an armed,
unfired pong timeout exists (a fired timeout's stale handle is inert, so it is
modelled as cleared).  `pongCount` counts outstanding (armed, unfired) pong
timeouts, so that "at most one outstanding" is a non-vacuous statement.
-/

namespace BybitWs

/-- Connection states, mirroring the source's `WsConnectionState` enum
(`READY_STATE_INITIAL` .. `READY_STATE_RECONNECTING`). -/
inductive WsConnectionState where
  | initial
  | connecting
  | connected
  | closing
  | reconnecting
deriving DecidableEq, Repr

/-- A transport handle.  `isOpen` mirrors the websocket's readyState being OPEN. -/
structure WsSocket where
  url : String
  isOpen : Bool
deriving DecidableEq, Repr

/-- Modelled from the spec: the per-key Connection Record held by `WsStore`
(spec section 3 and 4.1): connection state (default Initial for unknown keys),
socket handle, topic set, and the two timer handles. -/
structure WsStoredState where
  connectionState : WsConnectionState := .initial
  ws : Option WsSocket := none
  subscribedTopics : List String := []
  activePingTimer : Bool := false
  activePongTimer : Bool := false
  pongCount : Nat := 0
deriving DecidableEq, Repr

/-- Modelled from the spec: the Subscription Store (`WsStore`), a map from
connection key to Connection Record.  `records` is total with the default
record for unknown keys (spec: state accessor defaults to Initial); `keys`
lists the keys for which a record has been created (`getKeys`). -/
structure WsStore where
  records : String → WsStoredState
  keys : List String

def WsStore.empty : WsStore := { records := fun _ => {}, keys := [] }

/-- Modelled from the spec: mutate (creating if absent) the record for a key. -/
def WsStore.update (s : WsStore) (k : String) (f : WsStoredState → WsStoredState) : WsStore :=
  { records := fun k2 => if k2 = k then f (s.records k2) else s.records k2,
    keys := if k ∈ s.keys then s.keys else s.keys ++ [k] }

/-- Modelled from the spec: mutate the record for a key only if it exists
(the source's `wsStore.get(key)` without the create flag). -/
def WsStore.updateIfPresent (s : WsStore) (k : String) (f : WsStoredState → WsStoredState) : WsStore :=
  if k ∈ s.keys then
    { records := fun k2 => if k2 = k then f (s.records k2) else s.records k2,
      keys := s.keys }
  else s

def WsStore.getKeys (s : WsStore) : List String := s.keys

def WsStore.getTopics (s : WsStore) (k : String) : List String :=
  (s.records k).subscribedTopics

/-- Modelled from the spec: inserts topic into the key's set; no-op if present. -/
def WsStore.addTopic (s : WsStore) (k : String) (t : String) : WsStore :=
  s.update k (fun r =>
    if t ∈ r.subscribedTopics then r
    else { r with subscribedTopics := r.subscribedTopics ++ [t] })

/-- Modelled from the spec: removes topic; no-op if absent. -/
def WsStore.deleteTopic (s : WsStore) (k : String) (t : String) : WsStore :=
  s.updateIfPresent k (fun r =>
    { r with subscribedTopics := r.subscribedTopics.filter (fun t2 => t2 ≠ t) })

def WsStore.getConnectionState (s : WsStore) (k : String) : WsConnectionState :=
  (s.records k).connectionState

def WsStore.setConnectionState (s : WsStore) (k : String) (st : WsConnectionState) : WsStore :=
  s.update k (fun r => { r with connectionState := st })

def WsStore.isConnectionState (s : WsStore) (k : String) (st : WsConnectionState) : Bool :=
  s.getConnectionState k = st

def WsStore.getWs (s : WsStore) (k : String) : Option WsSocket :=
  (s.records k).ws

def WsStore.setWs (s : WsStore) (k : String) (w : WsSocket) : WsStore :=
  s.update k (fun r => { r with ws := some w })

/-- Modelled from the spec: a key holds an open socket. -/
def WsStore.isWsOpen (s : WsStore) (k : String) : Bool :=
  match (s.records k).ws with
  | some w => w.isOpen
  | none => false

/-- Outbound control frames (spec section 6 wire protocol). -/
inductive OutFrame where
  | ping
  | subscribe (args : List String)
  | unsubscribe (args : List String)
deriving DecidableEq, Repr

/-- Inbound frame fields the dispatcher inspects.  `success = none` means the
frame has no `success` field; `request` is the truthiness of the `request`
field; `ping`/`pong` are the truthiness of bare marker fields. -/
structure WsMsg where
  success : Option Bool := none
  retMsg : Option String := none
  request : Bool := false
  requestOp : Option String := none
  topic : Option String := none
  ping : Bool := false
  pong : Bool := false
deriving DecidableEq, Repr

/-- Truthiness of the `topic` field (a present, non-empty string). -/
def topicTruthy (m : WsMsg) : Bool :=
  match m.topic with
  | some t => t ≠ ""
  | none => false

/-- An inbound transport frame: either well-formed parsed JSON or malformed text. -/
inductive InboundFrame where
  | malformed
  | parsed (msg : WsMsg)
deriving DecidableEq, Repr

/-- Observable side effects of the handlers. -/
inductive Effect where
  | emitted (eventName : String)
  | emittedResponse (msg : WsMsg)
  | emittedUpdate (msg : WsMsg)
  | emittedError
  | sentFrame (wsKey : String) (frame : OutFrame)
  | openedTransport (wsKey : String) (url : String)
  | scheduledReconnect (targetKey : String) (delayMs : Nat)
  | startedPingInterval (wsKey : String) (intervalMs : Nat)
  | armedPongTimeout (wsKey : String) (timeoutMs : Nat)
  | clearedPongTimer (wsKey : String)
  | requestedSocketClose (wsKey : String)
  | logWarning (text : String)
  | logError (text : String)
  | logUnhandled
deriving DecidableEq, Repr

/-- Configuration options (`WSClientConfigurableOptions` with the source's
defaults from the constructor). -/
structure WsOptions where
  key : Option String := none
  secret : Option String := none
  livenet : Bool := false
  linear : Bool := false
  pongTimeout : Nat := 1000
  pingInterval : Nat := 10000
  reconnectTimeout : Nat := 500
  wsUrl : Option String := none

/-- JS truthiness of an optional string option (absent or empty is falsy). -/
def strTruthy : Option String → Bool
  | none => false
  | some s => s ≠ ""

def defaultWsKey : String := "inverse"

/-- `getLinearWsKeyForTopic`: the empty topic routes to the public key, any
other topic to the private key. -/
def getLinearWsKeyForTopic (topic : String) : String :=
  match topic with
  | "" => "public"
  | _ => "private"

def isInverse (o : WsOptions) : Bool := !o.linear

def getWsKeyForTopic (o : WsOptions) (topic : String) : String :=
  if isInverse o then defaultWsKey else getLinearWsKeyForTopic topic

def inverseEndpointLive : String := "wss://stream.bybit.com/realtime"
def inverseEndpointTest : String := "wss://stream-testnet.bybit.com/realtime"
def linearEndpointLive : String := "wss://stream.bybit.com/realtime_public"
def linearEndpointTest : String := "wss://stream-testnet.bybit.com/realtime_public"

def getWsUrl (o : WsOptions) : String :=
  match o.wsUrl with
  | some u => u
  | none =>
    if o.linear then (if o.livenet then linearEndpointLive else linearEndpointTest)
    else (if o.livenet then inverseEndpointLive else inverseEndpointTest)

/-- The module-local `isWsPong` of `spot-client.ts` (the one the dispatcher
actually calls): a `ping` request echo with `ret_msg = "pong"` and
`success === true`.  It has no bare `ping`/`pong` marker check. -/
def isWsPong (m : WsMsg) : Bool :=
  m.request && (m.requestOp = some "ping" : Bool) && (m.retMsg = some "pong" : Bool)
    && (m.success = some true : Bool)

namespace RequestUtils

/-- `isWsPong` of `src/util/requestUtils.ts`: additionally treats a truthy bare
`ping` or `pong` field as a pong.  The websocket client does not import it. -/
def isWsPong (m : WsMsg) : Bool :=
  if m.pong || m.ping then true
  else
    m.request && (m.requestOp = some "ping" : Bool) && (m.retMsg = some "pong" : Bool)
      && (m.success = some true : Bool)

/-- `serializeParams`: sort the parameter names, render `name=value` pairs
joined by ampersands. -/
def insertSorted (p : String × String) : List (String × String) → List (String × String)
  | [] => [p]
  | q :: rest => if p.1 ≤ q.1 then p :: q :: rest else q :: insertSorted p rest

def sortByName (l : List (String × String)) : List (String × String) :=
  l.foldr insertSorted []

def serializeParams (l : List (String × String)) : String :=
  String.intercalate "&" ((sortByName l).map (fun p => p.1 ++ "=" ++ p.2))

end RequestUtils

/-- List concatenation of per-element effect lists (the source's `forEach`
loops whose bodies only emit effects). -/
def concatMap (f : α → List β) : List α → List β
  | [] => []
  | a :: l => f a ++ concatMap f l

namespace WebsocketClient

/-- `tryWsSend`: send via `getWs(wsKey)?.send(...)`; if no socket is stored the
optional chain is a silent no-op, if the socket is not open the transport-level
send failure is caught and logged. -/
def tryWsSend (s : WsStore) (wsKey : String) (frame : OutFrame) : List Effect :=
  match s.getWs wsKey with
  | none => []
  | some w =>
    if w.isOpen then [Effect.sentFrame wsKey frame]
    else [Effect.logError "Failed to send WS message"]

/-- `requestSubscribeTopics`: send a subscribe frame listing the given topics. -/
def requestSubscribeTopics (s : WsStore) (wsKey : String) (topics : List String) : List Effect :=
  tryWsSend s wsKey (OutFrame.subscribe topics)

/-- `requestUnsubscribeTopics`: send an unsubscribe frame listing the given topics. -/
def requestUnsubscribeTopics (s : WsStore) (wsKey : String) (topics : List String) : List Effect :=
  tryWsSend s wsKey (OutFrame.unsubscribe topics)

/-- `clearPingTimer`: cancel and clear the repeating ping interval, if any. -/
def clearPingTimer (s : WsStore) (wsKey : String) : WsStore :=
  s.updateIfPresent wsKey (fun r =>
    if r.activePingTimer then { r with activePingTimer := false } else r)

/-- `clearPongTimer`: cancel and clear the pending pong timeout, if any. -/
def clearPongTimer (s : WsStore) (wsKey : String) : WsStore :=
  s.updateIfPresent wsKey (fun r =>
    if r.activePongTimer then
      { r with activePongTimer := false, pongCount := r.pongCount - 1 }
    else r)

/-- `clearTimers`: clear both the ping interval and the pong timeout. -/
def clearTimers (s : WsStore) (wsKey : String) : WsStore :=
  clearPongTimer (clearPingTimer s wsKey) wsKey

/-- The `forEach addTopic` loop of `subscribe`. -/
def addTopics (o : WsOptions) (s : WsStore) (wsTopics : List String) : WsStore :=
  wsTopics.foldl (fun acc t => acc.addTopic (getWsKeyForTopic o t) t) s

/-- The `forEach deleteTopic` loop of `unsubscribe`. -/
def deleteTopics (o : WsOptions) (s : WsStore) (wsTopics : List String) : WsStore :=
  wsTopics.foldl (fun acc t => acc.deleteTopic (getWsKeyForTopic o t) t) s

/-- `subscribe`: record every topic under its resolved key, then, if the
default key is currently connected, send each key's entire current topic set. -/
def subscribe (o : WsOptions) (s : WsStore) (wsTopics : List String) : WsStore × List Effect :=
  let s1 := addTopics o s wsTopics
  if s1.isConnectionState defaultWsKey .connected then
    (s1, concatMap (fun k => requestSubscribeTopics s1 k (s1.getTopics k)) s1.getKeys)
  else
    (s1, [])

/-- `unsubscribe`: delete every topic under its resolved key, then, if the
default key is currently connected, send each key's entire current topic set. -/
def unsubscribe (o : WsOptions) (s : WsStore) (wsTopics : List String) : WsStore × List Effect :=
  let s1 := deleteTopics o s wsTopics
  if s1.isConnectionState defaultWsKey .connected then
    (s1, concatMap (fun k => requestUnsubscribeTopics s1 k (s1.getTopics k)) s1.getKeys)
  else
    (s1, [])

/-- `close`: mark the key Closing, clear its timers, request transport close. -/
def close (s : WsStore) (wsKey : String) : WsStore × List Effect :=
  let s1 := s.setConnectionState wsKey .closing
  let s2 := clearTimers s1 wsKey
  match s2.getWs wsKey with
  | some _ => (s2, [Effect.requestedSocketClose wsKey])
  | none => (s2, [])

/-- `getAuthParams`: with truthy key and secret, build the signed query string
(`api_key`, `expires = now + timeOffset + 5000`, `signature` over the literal
string `GET/realtime` ++ expires); otherwise log a warning and return the empty
string.  `getTimeOffset`, the clock value and `signMessage` (modelled from the
spec: the external Authentication Provider) are passed in as parameters. -/
def getAuthParams (o : WsOptions) (timeOffset : Int) (nowMs : Nat) (sign : String → String → String) : String × List Effect :=
  if strTruthy o.key && strTruthy o.secret then
    let expires : Int := (nowMs : Int) + timeOffset + 5000
    let params : List (String × String) :=
      [("api_key", o.key.getD ""),
       ("expires", toString expires),
       ("signature", sign ("GET/realtime" ++ toString expires) (o.secret.getD ""))]
    ("?" ++ RequestUtils.serializeParams params, [])
  else
    ("", [Effect.logWarning "Connot authenticate websocket, either api or private keys missing."])

/-- `connect`: refuse when a socket is already open or an attempt is already
active; otherwise move Initial to Connecting, fetch auth params, open the
transport at the composed URL and store the new socket handle. -/
def connect (o : WsOptions) (s : WsStore) (wsKey : String) (timeOffset : Int) (nowMs : Nat) (sign : String → String → String) : WsStore × List Effect :=
  if s.isWsOpen wsKey then
    (s, [Effect.logError "Refused to connect to ws with existing active connection"])
  else if s.isConnectionState wsKey .connecting then
    (s, [Effect.logError "Refused to connect to ws, connection attempt already active"])
  else
    let s1 := if s.isConnectionState wsKey .initial then s.setConnectionState wsKey .connecting else s
    let auth := getAuthParams o timeOffset nowMs sign
    let url := getWsUrl o ++ auth.1
    (s1.setWs wsKey { url := url, isOpen := false },
     auth.2 ++ [Effect.openedTransport wsKey url])

/-- The constructor: create the store, set the default key to Initial, and
immediately call `connect` on the default key. -/
def constructorStore (o : WsOptions) (timeOffset : Int) (nowMs : Nat) (sign : String → String → String) : WsStore × List Effect :=
  let s1 := WsStore.empty.setConnectionState defaultWsKey .initial
  connect o s1 defaultWsKey timeOffset nowMs sign

/-- `reconnectWithDelay`: clear the key's timers, mark it Reconnecting unless
an attempt is already Connecting, and schedule a delayed `this.connect()` --
which targets the default key. -/
def reconnectWithDelay (s : WsStore) (wsKey : String) (connectionDelayMs : Nat) : WsStore × List Effect :=
  let s1 := clearTimers s wsKey
  let s2 :=
    if s1.getConnectionState wsKey ≠ .connecting then s1.setConnectionState wsKey .reconnecting
    else s1
  (s2, [Effect.scheduledReconnect defaultWsKey connectionDelayMs])

/-- `ping`: clear any pending pong timeout, send a ping frame, arm a fresh
single-shot pong timeout. -/
def ping (o : WsOptions) (s : WsStore) (wsKey : String) : WsStore × List Effect :=
  let s1 := clearPongTimer s wsKey
  let sendEffs := tryWsSend s1 wsKey OutFrame.ping
  let s2 := s1.update wsKey (fun r =>
    { r with activePongTimer := true, pongCount := r.pongCount + 1 })
  (s2, sendEffs ++ [Effect.armedPongTimeout wsKey o.pongTimeout])

/-- The pong-timeout callback body: the timeout fires (consuming the armed
timer) and forcibly requests the socket close. -/
def pongTimeoutFired (s : WsStore) (wsKey : String) : WsStore × List Effect :=
  let s1 := s.updateIfPresent wsKey (fun r =>
    if r.activePongTimer then
      { r with activePongTimer := false, pongCount := r.pongCount - 1 }
    else r)
  (s1, [Effect.requestedSocketClose wsKey])

/-- `onWsOpen`: emit `open` when the prior state was Connecting or
`reconnected` when it was Reconnecting, mark the key Connected, attempt a
subscribe frame with the full stored topic set for every key in the store, and
start the repeating ping interval for the opened key. -/
def onWsOpen (o : WsOptions) (s : WsStore) (wsKey : String) : WsStore × List Effect :=
  let openEffs :=
    if s.isConnectionState wsKey .connecting then [Effect.emitted "open"]
    else if s.isConnectionState wsKey .reconnecting then [Effect.emitted "reconnected"]
    else []
  let s1 := s.setConnectionState wsKey .connected
  let sendEffs := concatMap (fun k => requestSubscribeTopics s1 k (s1.getTopics k)) s1.getKeys
  let s2 := s1.update wsKey (fun r => { r with activePingTimer := true })
  (s2, openEffs ++ sendEffs ++ [Effect.startedPingInterval wsKey o.pingInterval])

/-- `onWsClose`: a close not caused by explicit close schedules a delayed
reconnect and emits `reconnect`; an explicit close (state Closing) resets the
key to Initial and emits `close`. -/
def onWsClose (o : WsOptions) (s : WsStore) (wsKey : String) : WsStore × List Effect :=
  if s.getConnectionState wsKey ≠ .closing then
    let r := reconnectWithDelay s wsKey o.reconnectTimeout
    (r.1, r.2 ++ [Effect.emitted "reconnect"])
  else
    (s.setConnectionState wsKey .initial, [Effect.emitted "close"])

/-- `onWsMessageResponse`: a recognized pong (per the module-local `isWsPong`)
clears the pending pong timeout and is not forwarded; every other frame with a
`success` field is forwarded as a `response` event. -/
def onWsMessageResponse (s : WsStore) (wsKey : String) (msg : WsMsg) : WsStore × List Effect :=
  if isWsPong msg then
    (clearPongTimer s wsKey, [Effect.clearedPongTimer wsKey])
  else
    (s, [Effect.emittedResponse msg])

/-- Outcome of the message handler: either a new store with effects, or the
uncaught exception raised by `JSON.parse` on malformed input. -/
inductive MsgOutcome where
  | ok (store : WsStore) (effects : List Effect)
  | parseError

/-- `onWsMessage`: parse the frame (malformed input raises an uncaught parse
exception), then dispatch on the presence of a `success` field, a truthy
`topic` field, or neither (logged as unhandled). -/
def onWsMessage (s : WsStore) (wsKey : String) : InboundFrame → MsgOutcome
  | InboundFrame.malformed => MsgOutcome.parseError
  | InboundFrame.parsed msg =>
    if msg.success.isSome then
      let r := onWsMessageResponse s wsKey msg
      MsgOutcome.ok r.1 r.2
    else if topicTruthy msg then
      MsgOutcome.ok s [Effect.emittedUpdate msg]
    else
      MsgOutcome.ok s [Effect.logUnhandled]

end WebsocketClient

/-- The transport marks a stored socket open when its open event fires
(the socket's readyState becomes OPEN). -/
def markSocketOpen (s : WsStore) (k : String) : WsStore :=
  s.updateIfPresent k (fun r => { r with ws := r.ws.map (fun w => { w with isOpen := true }) })

/-- The transport marks a stored socket closed when its close event fires
(the socket's readyState leaves OPEN). -/
def markSocketClosed (s : WsStore) (k : String) : WsStore :=
  s.updateIfPresent k (fun r => { r with ws := r.ws.map (fun w => { w with isOpen := false }) })

/-- True if a socket handle (open or not) is stored under the key; transport
events can only fire for keys holding a socket with attached handlers. -/
def socketPresent (s : WsStore) (k : String) : Bool :=
  (s.records k).ws.isSome

/-- System events after construction.  `connectDefault` covers both the delayed
reconnect timer and any other internal `connect()` invocation; both target the
default key, because `connect` is private and every call site passes
`defaultWsKey` (or no argument, which defaults to it). -/
inductive WsEvent where
  | subscribeCall (topics : List String)
  | unsubscribeCall (topics : List String)
  | closeCall (wsKey : String)
  | connectDefault (timeOffset : Int) (nowMs : Nat) (sign : String → String → String)
  | transportOpen (wsKey : String)
  | transportClose (wsKey : String)
  | inboundMessage (wsKey : String) (frame : InboundFrame)
  | pingTick (wsKey : String)
  | pongTimeoutFire (wsKey : String)

open WebsocketClient in
/-- One cooperative callback step.  Transport events are guarded on a stored
socket for the key, timer callbacks on the corresponding armed timer; a step
whose guard fails leaves the store unchanged (the event cannot fire). -/
def stepFn (o : WsOptions) (s : WsStore) : WsEvent → WsStore × List Effect
  | WsEvent.subscribeCall ts => subscribe o s ts
  | WsEvent.unsubscribeCall ts => unsubscribe o s ts
  | WsEvent.closeCall k => close s k
  | WsEvent.connectDefault toff now sign => connect o s defaultWsKey toff now sign
  | WsEvent.transportOpen k =>
    if socketPresent s k then onWsOpen o (markSocketOpen s k) k else (s, [])
  | WsEvent.transportClose k =>
    if socketPresent s k then onWsClose o (markSocketClosed s k) k else (s, [])
  | WsEvent.inboundMessage k f =>
    if socketPresent s k then
      match onWsMessage s k f with
      | MsgOutcome.ok s2 effs => (s2, effs)
      | MsgOutcome.parseError => (s, [])
    else (s, [])
  | WsEvent.pingTick k =>
    if (s.records k).activePingTimer then ping o s k else (s, [])
  | WsEvent.pongTimeoutFire k =>
    if (s.records k).activePongTimer then pongTimeoutFired s k else (s, [])

def runEvents (o : WsOptions) (s : WsStore) : List WsEvent → WsStore
  | [] => s
  | ev :: rest => runEvents o (stepFn o s ev).1 rest

/-- A store is reachable if it arises from the constructor followed by any
sequence of cooperative callback steps. -/
def Reachable (o : WsOptions) (s : WsStore) : Prop :=
  ∃ timeOffset nowMs sign evs,
    s = runEvents o (WebsocketClient.constructorStore o timeOffset nowMs sign).1 evs

/-- Concrete inverse-mode (default) options fixture. -/
def oInv : WsOptions := {}

/-- Concrete linear-mode options fixture. -/
def oLin : WsOptions := { linear := true }

/-- Concrete trivial signer fixture. -/
def sign0 : String → String → String := fun _ _ => ""

theorem WsStore.records_update (s : WsStore) (k : String) (f : WsStoredState → WsStoredState) (k2 : String) :
    (s.update k f).records k2 = if k2 = k then f (s.records k2) else s.records k2 := rfl

theorem WsStore.keys_update (s : WsStore) (k : String) (f : WsStoredState → WsStoredState) :
    (s.update k f).keys = if k ∈ s.keys then s.keys else s.keys ++ [k] := rfl

theorem WsStore.records_updateIfPresent (s : WsStore) (k : String) (f : WsStoredState → WsStoredState) (k2 : String) :
    (s.updateIfPresent k f).records k2 =
      if k ∈ s.keys then (if k2 = k then f (s.records k2) else s.records k2)
      else s.records k2 := by
  unfold WsStore.updateIfPresent
  split <;> simp_all

theorem WsStore.keys_updateIfPresent (s : WsStore) (k : String) (f : WsStoredState → WsStoredState) :
    (s.updateIfPresent k f).keys = s.keys := by
  unfold WsStore.updateIfPresent
  split <;> rfl

theorem WsStore.mem_keys_update_self (s : WsStore) (k : String) (f : WsStoredState → WsStoredState) :
    k ∈ (s.update k f).keys := by
  rw [WsStore.keys_update]
  split <;> simp_all

theorem WsStore.keys_subset_update (s : WsStore) (k : String) (f : WsStoredState → WsStoredState) :
    s.keys ⊆ (s.update k f).keys := by
  rw [WsStore.keys_update]
  split <;> simp [List.subset_append_left]

/-- Per-record pong-timer accounting: the outstanding pong-timeout count equals
one when the pong timer field is armed and zero otherwise. -/
def PongOk (r : WsStoredState) : Prop :=
  r.pongCount = if r.activePongTimer then 1 else 0

theorem PongOk_clearPongTimer (s : WsStore) (k k2 : String)
    (h : PongOk (s.records k2)) : PongOk ((WebsocketClient.clearPongTimer s k).records k2) := by
  unfold WebsocketClient.clearPongTimer
  rw [PongOk, WsStore.records_updateIfPresent]
  split
  · split
    · split
      · simp_all [PongOk]
      · simp_all [PongOk]
    · exact h
  · exact h

theorem clearPongTimer_connectionState (s : WsStore) (k k2 : String) :
    ((WebsocketClient.clearPongTimer s k).records k2).connectionState = (s.records k2).connectionState := by
  unfold WebsocketClient.clearPongTimer
  rw [WsStore.records_updateIfPresent]
  split <;> first | rfl | (split <;> first | rfl | (split <;> rfl))

theorem clearPongTimer_ws (s : WsStore) (k k2 : String) :
    ((WebsocketClient.clearPongTimer s k).records k2).ws = (s.records k2).ws := by
  unfold WebsocketClient.clearPongTimer
  rw [WsStore.records_updateIfPresent]
  split <;> first | rfl | (split <;> first | rfl | (split <;> rfl))

theorem clearPongTimer_topics (s : WsStore) (k k2 : String) :
    ((WebsocketClient.clearPongTimer s k).records k2).subscribedTopics = (s.records k2).subscribedTopics := by
  unfold WebsocketClient.clearPongTimer
  rw [WsStore.records_updateIfPresent]
  split <;> first | rfl | (split <;> first | rfl | (split <;> rfl))

theorem clearPongTimer_pingTimer (s : WsStore) (k k2 : String) :
    ((WebsocketClient.clearPongTimer s k).records k2).activePingTimer = (s.records k2).activePingTimer := by
  unfold WebsocketClient.clearPongTimer
  rw [WsStore.records_updateIfPresent]
  split <;> first | rfl | (split <;> first | rfl | (split <;> rfl))

theorem clearPongTimer_pongTimer_imp (s : WsStore) (k k2 : String)
    (h : ((WebsocketClient.clearPongTimer s k).records k2).activePongTimer = true) :
    (s.records k2).activePongTimer = true := by
  unfold WebsocketClient.clearPongTimer at h
  rw [WsStore.records_updateIfPresent] at h
  revert h
  split <;> first | exact id | (split <;> first | (split <;> simp_all) | exact id)

theorem clearPingTimer_connectionState (s : WsStore) (k k2 : String) :
    ((WebsocketClient.clearPingTimer s k).records k2).connectionState = (s.records k2).connectionState := by
  unfold WebsocketClient.clearPingTimer
  rw [WsStore.records_updateIfPresent]
  split <;> first | rfl | (split <;> first | rfl | (split <;> rfl))

theorem clearPingTimer_ws (s : WsStore) (k k2 : String) :
    ((WebsocketClient.clearPingTimer s k).records k2).ws = (s.records k2).ws := by
  unfold WebsocketClient.clearPingTimer
  rw [WsStore.records_updateIfPresent]
  split <;> first | rfl | (split <;> first | rfl | (split <;> rfl))

theorem clearPingTimer_topics (s : WsStore) (k k2 : String) :
    ((WebsocketClient.clearPingTimer s k).records k2).subscribedTopics = (s.records k2).subscribedTopics := by
  unfold WebsocketClient.clearPingTimer
  rw [WsStore.records_updateIfPresent]
  split <;> first | rfl | (split <;> first | rfl | (split <;> rfl))

theorem clearPingTimer_pongTimer (s : WsStore) (k k2 : String) :
    ((WebsocketClient.clearPingTimer s k).records k2).activePongTimer = (s.records k2).activePongTimer := by
  unfold WebsocketClient.clearPingTimer
  rw [WsStore.records_updateIfPresent]
  split <;> first | rfl | (split <;> first | rfl | (split <;> rfl))

theorem clearPingTimer_pongCount (s : WsStore) (k k2 : String) :
    ((WebsocketClient.clearPingTimer s k).records k2).pongCount = (s.records k2).pongCount := by
  unfold WebsocketClient.clearPingTimer
  rw [WsStore.records_updateIfPresent]
  split <;> first | rfl | (split <;> first | rfl | (split <;> rfl))

theorem clearTimers_pingTimer_false (s : WsStore) (k : String) (hk : k ∈ s.keys) :
    ((WebsocketClient.clearTimers s k).records k).activePingTimer = false := by
  unfold WebsocketClient.clearTimers
  rw [clearPongTimer_pingTimer]
  unfold WebsocketClient.clearPingTimer
  rw [WsStore.records_updateIfPresent]
  simp only [hk, if_true]
  split <;> simp_all

theorem clearTimers_pongTimer_false (s : WsStore) (k : String) (hk : k ∈ s.keys) :
    ((WebsocketClient.clearTimers s k).records k).activePongTimer = false := by
  unfold WebsocketClient.clearTimers WebsocketClient.clearPongTimer
  rw [WsStore.records_updateIfPresent]
  have hk2 : k ∈ (WebsocketClient.clearPingTimer s k).keys := by
    unfold WebsocketClient.clearPingTimer
    rw [WsStore.keys_updateIfPresent]
    exact hk
  simp only [hk2, if_true]
  split <;> simp_all

theorem addTopic_nonTopicFields (s : WsStore) (k t k2 : String) :
    ((s.addTopic k t).records k2).connectionState = (s.records k2).connectionState ∧
    ((s.addTopic k t).records k2).ws = (s.records k2).ws ∧
    ((s.addTopic k t).records k2).activePingTimer = (s.records k2).activePingTimer ∧
    ((s.addTopic k t).records k2).activePongTimer = (s.records k2).activePongTimer ∧
    ((s.addTopic k t).records k2).pongCount = (s.records k2).pongCount := by
  unfold WsStore.addTopic
  rw [WsStore.records_update]
  split
  · split <;> simp
  · simp

theorem addTopics_nonTopicFields (o : WsOptions) (ts : List String) :
    ∀ s k2,
      ((WebsocketClient.addTopics o s ts).records k2).connectionState = (s.records k2).connectionState ∧
      ((WebsocketClient.addTopics o s ts).records k2).ws = (s.records k2).ws ∧
      ((WebsocketClient.addTopics o s ts).records k2).activePingTimer = (s.records k2).activePingTimer ∧
      ((WebsocketClient.addTopics o s ts).records k2).activePongTimer = (s.records k2).activePongTimer ∧
      ((WebsocketClient.addTopics o s ts).records k2).pongCount = (s.records k2).pongCount := by
  induction ts with
  | nil => intro s k2; exact ⟨rfl, rfl, rfl, rfl, rfl⟩
  | cons t rest ih =>
    intro s k2
    have h1 := addTopic_nonTopicFields s (getWsKeyForTopic o t) t k2
    have h2 := ih (s.addTopic (getWsKeyForTopic o t) t) k2
    unfold WebsocketClient.addTopics at h2 ⊢
    simp only [List.foldl_cons]
    exact ⟨h2.1.trans h1.1, h2.2.1.trans h1.2.1, h2.2.2.1.trans h1.2.2.1,
      h2.2.2.2.1.trans h1.2.2.2.1, h2.2.2.2.2.trans h1.2.2.2.2⟩

theorem addTopic_mem_self (s : WsStore) (k t : String) :
    t ∈ ((s.addTopic k t).records k).subscribedTopics := by
  unfold WsStore.addTopic
  rw [WsStore.records_update]
  simp only [if_pos rfl]
  by_cases h : t ∈ (s.records k).subscribedTopics <;> simp [h]

theorem addTopic_topics_mono (s : WsStore) (k t k2 t0 : String)
    (h : t0 ∈ (s.records k2).subscribedTopics) :
    t0 ∈ ((s.addTopic k t).records k2).subscribedTopics := by
  unfold WsStore.addTopic
  rw [WsStore.records_update]
  split
  · split
    · simpa using h
    · simp only [List.mem_append]
      exact Or.inl h
  · exact h

theorem addTopics_topics_mono (o : WsOptions) (ts : List String) :
    ∀ s k2 t0, t0 ∈ (s.records k2).subscribedTopics →
      t0 ∈ ((WebsocketClient.addTopics o s ts).records k2).subscribedTopics := by
  induction ts with
  | nil => intro s k2 t0 h; exact h
  | cons t rest ih =>
    intro s k2 t0 h
    unfold WebsocketClient.addTopics
    simp only [List.foldl_cons]
    exact ih (s.addTopic (getWsKeyForTopic o t) t) k2 t0 (addTopic_topics_mono s _ t k2 t0 h)

theorem addTopics_mem (o : WsOptions) (ts : List String) :
    ∀ s t, t ∈ ts →
      t ∈ ((WebsocketClient.addTopics o s ts).records (getWsKeyForTopic o t)).subscribedTopics := by
  induction ts with
  | nil => intro s t h; cases h
  | cons t2 rest ih =>
    intro s t h
    unfold WebsocketClient.addTopics
    simp only [List.foldl_cons]
    rcases List.mem_cons.mp h with h1 | h2
    · subst h1
      by_cases hr : t ∈ rest
      · exact ih _ t hr
      · exact addTopics_topics_mono o rest _ _ t (addTopic_mem_self s (getWsKeyForTopic o t) t)
    · exact ih _ t h2

theorem addTopic_keys_mono (s : WsStore) (k t : String) :
    s.keys ⊆ (s.addTopic k t).keys :=
  WsStore.keys_subset_update s k _

theorem addTopics_keys_mono (o : WsOptions) (ts : List String) :
    ∀ s, s.keys ⊆ (WebsocketClient.addTopics o s ts).keys := by
  induction ts with
  | nil => intro s; exact fun _ h => h
  | cons t rest ih =>
    intro s
    unfold WebsocketClient.addTopics
    simp only [List.foldl_cons]
    exact fun x hx => ih (s.addTopic (getWsKeyForTopic o t) t) (addTopic_keys_mono s _ t hx)

theorem addTopics_mem_keys (o : WsOptions) (ts : List String) :
    ∀ s t, t ∈ ts → getWsKeyForTopic o t ∈ (WebsocketClient.addTopics o s ts).keys := by
  induction ts with
  | nil => intro s t h; cases h
  | cons t2 rest ih =>
    intro s t h
    unfold WebsocketClient.addTopics
    simp only [List.foldl_cons]
    rcases List.mem_cons.mp h with h1 | h2
    · subst h1
      exact addTopics_keys_mono o rest _ (WsStore.mem_keys_update_self s (getWsKeyForTopic o t) _)
    · exact ih _ t h2

theorem addTopic_records_of_not_mem_keys (s : WsStore) (k t k2 : String)
    (h : k2 ∉ (s.addTopic k t).keys) :
    (s.addTopic k t).records k2 = s.records k2 ∧ k2 ∉ s.keys := by
  have hne : k2 ≠ k := by
    intro he
    exact h (he ▸ WsStore.mem_keys_update_self s k _)
  have hk2 : k2 ∉ s.keys := fun hm => h (addTopic_keys_mono s k t hm)
  constructor
  · unfold WsStore.addTopic
    rw [WsStore.records_update]
    simp [hne]
  · exact hk2

theorem addTopics_records_of_not_mem_keys (o : WsOptions) (ts : List String) :
    ∀ s k2, k2 ∉ (WebsocketClient.addTopics o s ts).keys →
      (WebsocketClient.addTopics o s ts).records k2 = s.records k2 ∧ k2 ∉ s.keys := by
  induction ts with
  | nil => intro s k2 h; exact ⟨rfl, h⟩
  | cons t rest ih =>
    intro s k2 h
    unfold WebsocketClient.addTopics at h ⊢
    simp only [List.foldl_cons] at h ⊢
    obtain ⟨h1, h2⟩ := ih (s.addTopic (getWsKeyForTopic o t) t) k2 h
    obtain ⟨h3, h4⟩ := addTopic_records_of_not_mem_keys s (getWsKeyForTopic o t) t k2 h2
    exact ⟨h1.trans h3, h4⟩

theorem deleteTopic_nonTopicFields (s : WsStore) (k t k2 : String) :
    ((s.deleteTopic k t).records k2).connectionState = (s.records k2).connectionState ∧
    ((s.deleteTopic k t).records k2).ws = (s.records k2).ws ∧
    ((s.deleteTopic k t).records k2).activePingTimer = (s.records k2).activePingTimer ∧
    ((s.deleteTopic k t).records k2).activePongTimer = (s.records k2).activePongTimer ∧
    ((s.deleteTopic k t).records k2).pongCount = (s.records k2).pongCount := by
  unfold WsStore.deleteTopic
  rw [WsStore.records_updateIfPresent]
  split
  · split <;> simp
  · simp

theorem deleteTopics_nonTopicFields (o : WsOptions) (ts : List String) :
    ∀ s k2,
      ((WebsocketClient.deleteTopics o s ts).records k2).connectionState = (s.records k2).connectionState ∧
      ((WebsocketClient.deleteTopics o s ts).records k2).ws = (s.records k2).ws ∧
      ((WebsocketClient.deleteTopics o s ts).records k2).activePingTimer = (s.records k2).activePingTimer ∧
      ((WebsocketClient.deleteTopics o s ts).records k2).activePongTimer = (s.records k2).activePongTimer ∧
      ((WebsocketClient.deleteTopics o s ts).records k2).pongCount = (s.records k2).pongCount := by
  induction ts with
  | nil => intro s k2; exact ⟨rfl, rfl, rfl, rfl, rfl⟩
  | cons t rest ih =>
    intro s k2
    have h1 := deleteTopic_nonTopicFields s (getWsKeyForTopic o t) t k2
    have h2 := ih (s.deleteTopic (getWsKeyForTopic o t) t) k2
    unfold WebsocketClient.deleteTopics at h2 ⊢
    simp only [List.foldl_cons]
    exact ⟨h2.1.trans h1.1, h2.2.1.trans h1.2.1, h2.2.2.1.trans h1.2.2.1,
      h2.2.2.2.1.trans h1.2.2.2.1, h2.2.2.2.2.trans h1.2.2.2.2⟩

theorem deleteTopic_keys (s : WsStore) (k t : String) :
    (s.deleteTopic k t).keys = s.keys :=
  WsStore.keys_updateIfPresent s k _

theorem deleteTopics_keys (o : WsOptions) (ts : List String) :
    ∀ s, (WebsocketClient.deleteTopics o s ts).keys = s.keys := by
  induction ts with
  | nil => intro s; rfl
  | cons t rest ih =>
    intro s
    unfold WebsocketClient.deleteTopics
    simp only [List.foldl_cons]
    exact (ih (s.deleteTopic (getWsKeyForTopic o t) t)).trans (deleteTopic_keys s _ t)

theorem deleteTopic_topics_anti (s : WsStore) (k t k2 t0 : String)
    (h : t0 ∈ ((s.deleteTopic k t).records k2).subscribedTopics) :
    t0 ∈ (s.records k2).subscribedTopics := by
  unfold WsStore.deleteTopic at h
  rw [WsStore.records_updateIfPresent] at h
  by_cases h1 : k ∈ s.keys
  · by_cases h2 : k2 = k
    · subst h2
      simp only [h1, if_pos rfl, if_true] at h
      simp only [List.mem_filter] at h
      exact h.1
    · simpa [h1, h2] using h
  · simpa [h1] using h

theorem deleteTopics_topics_anti (o : WsOptions) (ts : List String) :
    ∀ s k2 t0, t0 ∈ ((WebsocketClient.deleteTopics o s ts).records k2).subscribedTopics →
      t0 ∈ (s.records k2).subscribedTopics := by
  induction ts with
  | nil => intro s k2 t0 h; exact h
  | cons t rest ih =>
    intro s k2 t0 h
    unfold WebsocketClient.deleteTopics at h
    simp only [List.foldl_cons] at h
    exact deleteTopic_topics_anti s _ t k2 t0 (ih _ k2 t0 h)

theorem deleteTopic_not_mem_self (s : WsStore) (k t : String)
    (hfresh : k ∉ s.keys → (s.records k).subscribedTopics = []) :
    t ∉ ((s.deleteTopic k t).records k).subscribedTopics := by
  unfold WsStore.deleteTopic
  rw [WsStore.records_updateIfPresent]
  by_cases h1 : k ∈ s.keys
  · simp [h1, List.mem_filter]
  · simp [h1, hfresh h1]

theorem deleteTopic_fresh_preserved (s : WsStore) (k t : String)
    (hfresh : ∀ k2, k2 ∉ s.keys → (s.records k2).subscribedTopics = []) :
    ∀ k2, k2 ∉ (s.deleteTopic k t).keys → ((s.deleteTopic k t).records k2).subscribedTopics = [] := by
  intro k2 hk2
  rw [deleteTopic_keys] at hk2
  unfold WsStore.deleteTopic
  rw [WsStore.records_updateIfPresent]
  split
  · split
    · rename_i hin heq
      subst heq
      exact absurd hin hk2
    · exact hfresh k2 hk2
  · exact hfresh k2 hk2

theorem deleteTopics_not_mem (o : WsOptions) (ts : List String) :
    ∀ s t, t ∈ ts →
      (∀ k2, k2 ∉ s.keys → (s.records k2).subscribedTopics = []) →
      t ∉ ((WebsocketClient.deleteTopics o s ts).records (getWsKeyForTopic o t)).subscribedTopics := by
  induction ts with
  | nil => intro s t h; cases h
  | cons t2 rest ih =>
    intro s t h hfresh
    unfold WebsocketClient.deleteTopics
    simp only [List.foldl_cons]
    rcases List.mem_cons.mp h with h1 | h2
    · subst h1
      by_cases hr : t ∈ rest
      · exact ih _ t hr (deleteTopic_fresh_preserved s _ t hfresh)
      · intro hmem
        exact deleteTopic_not_mem_self s (getWsKeyForTopic o t) t (hfresh _)
          (deleteTopics_topics_anti o rest _ _ t hmem)
    · exact ih _ t h2 (deleteTopic_fresh_preserved s _ t2 hfresh)

theorem deleteTopic_records_of_not_mem_keys (s : WsStore) (k t k2 : String)
    (h : k2 ∉ s.keys) : (s.deleteTopic k t).records k2 = s.records k2 := by
  unfold WsStore.deleteTopic
  rw [WsStore.records_updateIfPresent]
  by_cases h1 : k ∈ s.keys
  · by_cases h2 : k2 = k
    · subst h2; exact absurd h1 h
    · simp [h1, h2]
  · simp [h1]

theorem deleteTopics_records_of_not_mem_keys (o : WsOptions) (ts : List String) :
    ∀ s k2, k2 ∉ s.keys → (WebsocketClient.deleteTopics o s ts).records k2 = s.records k2 := by
  induction ts with
  | nil => intro s k2 _; rfl
  | cons t rest ih =>
    intro s k2 h
    unfold WebsocketClient.deleteTopics
    simp only [List.foldl_cons]
    have hk : k2 ∉ (s.deleteTopic (getWsKeyForTopic o t) t).keys := by
      rw [deleteTopic_keys]; exact h
    exact (ih _ k2 hk).trans (deleteTopic_records_of_not_mem_keys s _ t k2 h)

theorem clearTimers_connectionState (s : WsStore) (k k2 : String) :
    ((WebsocketClient.clearTimers s k).records k2).connectionState = (s.records k2).connectionState := by
  unfold WebsocketClient.clearTimers
  rw [clearPongTimer_connectionState, clearPingTimer_connectionState]

theorem clearTimers_ws (s : WsStore) (k k2 : String) :
    ((WebsocketClient.clearTimers s k).records k2).ws = (s.records k2).ws := by
  unfold WebsocketClient.clearTimers
  rw [clearPongTimer_ws, clearPingTimer_ws]

theorem clearTimers_topics (s : WsStore) (k k2 : String) :
    ((WebsocketClient.clearTimers s k).records k2).subscribedTopics = (s.records k2).subscribedTopics := by
  unfold WebsocketClient.clearTimers
  rw [clearPongTimer_topics, clearPingTimer_topics]

theorem clearTimers_keys (s : WsStore) (k : String) :
    (WebsocketClient.clearTimers s k).keys = s.keys := by
  unfold WebsocketClient.clearTimers WebsocketClient.clearPongTimer
  rw [WsStore.keys_updateIfPresent]
  unfold WebsocketClient.clearPingTimer
  rw [WsStore.keys_updateIfPresent]

theorem clearPingTimer_keys (s : WsStore) (k : String) :
    (WebsocketClient.clearPingTimer s k).keys = s.keys :=
  WsStore.keys_updateIfPresent s k _

theorem clearPongTimer_keys (s : WsStore) (k : String) :
    (WebsocketClient.clearPongTimer s k).keys = s.keys :=
  WsStore.keys_updateIfPresent s k _

theorem PongOk_clearPingTimer (s : WsStore) (k k2 : String)
    (h : PongOk (s.records k2)) : PongOk ((WebsocketClient.clearPingTimer s k).records k2) := by
  unfold PongOk
  rw [clearPingTimer_pongCount, clearPingTimer_pongTimer]
  exact h

theorem PongOk_clearTimers (s : WsStore) (k k2 : String)
    (h : PongOk (s.records k2)) : PongOk ((WebsocketClient.clearTimers s k).records k2) := by
  unfold WebsocketClient.clearTimers
  exact PongOk_clearPongTimer _ k k2 (PongOk_clearPingTimer s k k2 h)

theorem clearPongTimer_records_of_not_mem_keys (s : WsStore) (k k2 : String)
    (h : k2 ∉ s.keys) : (WebsocketClient.clearPongTimer s k).records k2 = s.records k2 := by
  unfold WebsocketClient.clearPongTimer
  rw [WsStore.records_updateIfPresent]
  by_cases h1 : k ∈ s.keys
  · by_cases h2 : k2 = k
    · subst h2; exact absurd h1 h
    · simp [h1, h2]
  · simp [h1]

theorem clearPingTimer_records_of_not_mem_keys (s : WsStore) (k k2 : String)
    (h : k2 ∉ s.keys) : (WebsocketClient.clearPingTimer s k).records k2 = s.records k2 := by
  unfold WebsocketClient.clearPingTimer
  rw [WsStore.records_updateIfPresent]
  by_cases h1 : k ∈ s.keys
  · by_cases h2 : k2 = k
    · subst h2; exact absurd h1 h
    · simp [h1, h2]
  · simp [h1]

theorem clearTimers_records_of_not_mem_keys (s : WsStore) (k k2 : String)
    (h : k2 ∉ s.keys) : (WebsocketClient.clearTimers s k).records k2 = s.records k2 := by
  unfold WebsocketClient.clearTimers
  rw [clearPongTimer_records_of_not_mem_keys _ k k2 (by rw [clearPingTimer_keys]; exact h)]
  exact clearPingTimer_records_of_not_mem_keys s k k2 h

theorem WsStore.records_update_ne {s : WsStore} {k k2 : String} (f : WsStoredState → WsStoredState)
    (h : k2 ≠ k) : (s.update k f).records k2 = s.records k2 := by
  rw [WsStore.records_update]
  simp [h]

theorem WsStore.records_update_self (s : WsStore) (k : String) (f : WsStoredState → WsStoredState) :
    (s.update k f).records k = f (s.records k) := by
  rw [WsStore.records_update]
  simp

theorem WsStore.records_updateIfPresent_ne {s : WsStore} {k k2 : String} (f : WsStoredState → WsStoredState)
    (h : k2 ≠ k) : (s.updateIfPresent k f).records k2 = s.records k2 := by
  rw [WsStore.records_updateIfPresent]
  by_cases h1 : k ∈ s.keys <;> simp [h1, h]

theorem WsStore.records_updateIfPresent_self {s : WsStore} {k : String} (f : WsStoredState → WsStoredState)
    (h : k ∈ s.keys) : (s.updateIfPresent k f).records k = f (s.records k) := by
  rw [WsStore.records_updateIfPresent]
  simp [h]

theorem WsStore.updateIfPresent_absent {s : WsStore} {k : String} (f : WsStoredState → WsStoredState)
    (h : k ∉ s.keys) : s.updateIfPresent k f = s := by
  unfold WsStore.updateIfPresent
  rw [if_neg h]

theorem setConnectionState_records_ne {s : WsStore} {k k2 : String} {st : WsConnectionState}
    (h : k2 ≠ k) : (s.setConnectionState k st).records k2 = s.records k2 :=
  WsStore.records_update_ne _ h

theorem setConnectionState_records_self (s : WsStore) (k : String) (st : WsConnectionState) :
    (s.setConnectionState k st).records k = { s.records k with connectionState := st } :=
  WsStore.records_update_self s k _

theorem setConnectionState_keys (s : WsStore) (k : String) (st : WsConnectionState) :
    (s.setConnectionState k st).keys = if k ∈ s.keys then s.keys else s.keys ++ [k] := rfl

theorem setConnectionState_mem_keys_self (s : WsStore) (k : String) (st : WsConnectionState) :
    k ∈ (s.setConnectionState k st).keys :=
  WsStore.mem_keys_update_self s k _

theorem setConnectionState_keys_subset (s : WsStore) (k : String) (st : WsConnectionState) :
    s.keys ⊆ (s.setConnectionState k st).keys :=
  WsStore.keys_subset_update s k _

theorem setWs_records_ne {s : WsStore} {k k2 : String} {w : WsSocket}
    (h : k2 ≠ k) : (s.setWs k w).records k2 = s.records k2 :=
  WsStore.records_update_ne _ h

theorem setWs_records_self (s : WsStore) (k : String) (w : WsSocket) :
    (s.setWs k w).records k = { s.records k with ws := some w } :=
  WsStore.records_update_self s k _

theorem setWs_mem_keys_self (s : WsStore) (k : String) (w : WsSocket) :
    k ∈ (s.setWs k w).keys :=
  WsStore.mem_keys_update_self s k _

theorem setWs_keys_subset (s : WsStore) (k : String) (w : WsSocket) :
    s.keys ⊆ (s.setWs k w).keys :=
  WsStore.keys_subset_update s k _

theorem clearTimers_records_ne {s : WsStore} {k k2 : String} (h : k2 ≠ k) :
    (WebsocketClient.clearTimers s k).records k2 = s.records k2 := by
  unfold WebsocketClient.clearTimers WebsocketClient.clearPongTimer
  rw [WsStore.records_updateIfPresent_ne _ h]
  unfold WebsocketClient.clearPingTimer
  rw [WsStore.records_updateIfPresent_ne _ h]

theorem clearTimers_absent {s : WsStore} {k : String} (h : k ∉ s.keys) :
    WebsocketClient.clearTimers s k = s := by
  unfold WebsocketClient.clearTimers WebsocketClient.clearPingTimer
  rw [WsStore.updateIfPresent_absent _ h]
  unfold WebsocketClient.clearPongTimer
  rw [WsStore.updateIfPresent_absent _ h]

theorem clearPongTimer_records_ne {s : WsStore} {k k2 : String} (h : k2 ≠ k) :
    (WebsocketClient.clearPongTimer s k).records k2 = s.records k2 := by
  unfold WebsocketClient.clearPongTimer
  rw [WsStore.records_updateIfPresent_ne _ h]

/-- System invariant over reachable stores: only the default key ever holds a
socket or reaches Connected; a Connected key holds an open socket; pong-timeout
accounting matches the timer flag (hence at most one outstanding); a pending
pong timeout coexists with the ping interval; and untouched keys hold the
default record. -/
structure SysInv (s : WsStore) : Prop where
  nonDefault : ∀ k, k ≠ defaultWsKey →
    (s.records k).ws = none ∧ (s.records k).connectionState ≠ WsConnectionState.connected
  connectedOpen : ∀ k, (s.records k).connectionState = WsConnectionState.connected →
    ∃ w, (s.records k).ws = some w ∧ w.isOpen = true
  pongOk : ∀ k, PongOk (s.records k)
  pongImpPing : ∀ k, (s.records k).activePongTimer = true → (s.records k).activePingTimer = true
  fresh : ∀ k, k ∉ s.keys → s.records k = {}

theorem sysInv_addTopics (o : WsOptions) (ts : List String) (s : WsStore)
    (h : SysInv s) : SysInv (WebsocketClient.addTopics o s ts) := by
  constructor
  · intro k hk
    have hf := addTopics_nonTopicFields o ts s k
    rw [hf.2.1, hf.1]
    exact h.nonDefault k hk
  · intro k hc
    have hf := addTopics_nonTopicFields o ts s k
    rw [hf.1] at hc
    rw [hf.2.1]
    exact h.connectedOpen k hc
  · intro k
    have hf := addTopics_nonTopicFields o ts s k
    unfold PongOk
    rw [hf.2.2.2.2, hf.2.2.2.1]
    exact h.pongOk k
  · intro k
    have hf := addTopics_nonTopicFields o ts s k
    rw [hf.2.2.2.1, hf.2.2.1]
    exact h.pongImpPing k
  · intro k hk
    obtain ⟨h1, h2⟩ := addTopics_records_of_not_mem_keys o ts s k hk
    rw [h1]
    exact h.fresh k h2

theorem sysInv_deleteTopics (o : WsOptions) (ts : List String) (s : WsStore)
    (h : SysInv s) : SysInv (WebsocketClient.deleteTopics o s ts) := by
  constructor
  · intro k hk
    have hf := deleteTopics_nonTopicFields o ts s k
    rw [hf.2.1, hf.1]
    exact h.nonDefault k hk
  · intro k hc
    have hf := deleteTopics_nonTopicFields o ts s k
    rw [hf.1] at hc
    rw [hf.2.1]
    exact h.connectedOpen k hc
  · intro k
    have hf := deleteTopics_nonTopicFields o ts s k
    unfold PongOk
    rw [hf.2.2.2.2, hf.2.2.2.1]
    exact h.pongOk k
  · intro k
    have hf := deleteTopics_nonTopicFields o ts s k
    rw [hf.2.2.2.1, hf.2.2.1]
    exact h.pongImpPing k
  · intro k hk
    rw [deleteTopics_keys] at hk
    rw [deleteTopics_records_of_not_mem_keys o ts s k hk]
    exact h.fresh k hk

theorem subscribe_fst (o : WsOptions) (s : WsStore) (ts : List String) :
    (WebsocketClient.subscribe o s ts).1 = WebsocketClient.addTopics o s ts := by
  unfold WebsocketClient.subscribe
  dsimp only
  split <;> rfl

theorem unsubscribe_fst (o : WsOptions) (s : WsStore) (ts : List String) :
    (WebsocketClient.unsubscribe o s ts).1 = WebsocketClient.deleteTopics o s ts := by
  unfold WebsocketClient.unsubscribe
  dsimp only
  split <;> rfl

theorem sysInv_clearPongTimer (s : WsStore) (k : String)
    (h : SysInv s) : SysInv (WebsocketClient.clearPongTimer s k) := by
  constructor
  · intro k2 hk
    rw [clearPongTimer_ws, clearPongTimer_connectionState]
    exact h.nonDefault k2 hk
  · intro k2 hc
    rw [clearPongTimer_connectionState] at hc
    rw [clearPongTimer_ws]
    exact h.connectedOpen k2 hc
  · intro k2
    exact PongOk_clearPongTimer s k k2 (h.pongOk k2)
  · intro k2 hp
    rw [clearPongTimer_pingTimer]
    exact h.pongImpPing k2 (clearPongTimer_pongTimer_imp s k k2 hp)
  · intro k2 hk
    rw [clearPongTimer_keys] at hk
    rw [clearPongTimer_records_of_not_mem_keys s k k2 hk]
    exact h.fresh k2 hk

theorem sysInv_message (s : WsStore) (k : String) (f : InboundFrame)
    (h : SysInv s) :
    ∀ s2 effs, WebsocketClient.onWsMessage s k f = WebsocketClient.MsgOutcome.ok s2 effs →
      SysInv s2 := by
  intro s2 effs heq
  cases f with
  | malformed => cases heq
  | parsed msg =>
    unfold WebsocketClient.onWsMessage at heq
    by_cases h1 : msg.success.isSome
    · simp only [h1, if_true] at heq
      unfold WebsocketClient.onWsMessageResponse at heq
      by_cases h2 : isWsPong msg
      · simp only [h2, if_true] at heq
        cases heq
        exact sysInv_clearPongTimer s k h
      · simp only [h2, if_false, Bool.false_eq_true] at heq
        cases heq
        exact h
    · simp only [h1, if_false, Bool.false_eq_true] at heq
      by_cases h2 : topicTruthy msg
      · simp only [h2, if_true] at heq
        cases heq
        exact h
      · simp only [h2, if_false, Bool.false_eq_true] at heq
        cases heq
        exact h

theorem clearPongTimer_pongTimer_false {s : WsStore} {k : String} (hk : k ∈ s.keys) :
    ((WebsocketClient.clearPongTimer s k).records k).activePongTimer = false := by
  unfold WebsocketClient.clearPongTimer
  rw [WsStore.records_updateIfPresent_self _ hk]
  split <;> simp_all

theorem sysInv_setConnectionState_nc (s : WsStore) (k : String) (st : WsConnectionState)
    (hst : st ≠ WsConnectionState.connected) (h : SysInv s) :
    SysInv (s.setConnectionState k st) := by
  have hrec : ∀ k2, (s.setConnectionState k st).records k2 =
      if k2 = k then { s.records k2 with connectionState := st } else s.records k2 :=
    fun k2 => WsStore.records_update s k _ k2
  constructor
  · intro k2 hk2
    rw [hrec k2]
    by_cases he : k2 = k
    · subst he
      simp only [if_pos rfl]
      exact ⟨(h.nonDefault k2 hk2).1, by simpa using hst⟩
    · simp only [he, if_false]
      exact h.nonDefault k2 hk2
  · intro k2 hc
    rw [hrec k2] at hc ⊢
    by_cases he : k2 = k
    · subst he
      simp only [if_pos rfl] at hc
      exact absurd (by simpa using hc) hst
    · simp only [he, if_false] at hc ⊢
      exact h.connectedOpen k2 hc
  · intro k2
    rw [hrec k2]
    by_cases he : k2 = k
    · subst he
      simp only [if_pos rfl]
      exact h.pongOk k2
    · simp only [he, if_false]
      exact h.pongOk k2
  · intro k2
    rw [hrec k2]
    by_cases he : k2 = k
    · subst he
      simp only [if_pos rfl]
      exact h.pongImpPing k2
    · simp only [he, if_false]
      exact h.pongImpPing k2
  · intro k2 hk2
    have hne : k2 ≠ k := by
      intro he
      exact hk2 (he ▸ WsStore.mem_keys_update_self s k _)
    have hmem : k2 ∉ s.keys := fun hm => hk2 (WsStore.keys_subset_update s k _ hm)
    rw [hrec k2, if_neg hne]
    exact h.fresh k2 hmem

theorem sysInv_clearTimers (s : WsStore) (k : String) (h : SysInv s) :
    SysInv (WebsocketClient.clearTimers s k) := by
  by_cases hk : k ∈ s.keys
  · constructor
    · intro k2 hk2
      by_cases he : k2 = k
      · subst he
        rw [clearTimers_ws, clearTimers_connectionState]
        exact h.nonDefault k2 hk2
      · rw [clearTimers_records_ne he]
        exact h.nonDefault k2 hk2
    · intro k2 hc
      rw [clearTimers_connectionState] at hc
      rw [clearTimers_ws]
      exact h.connectedOpen k2 hc
    · intro k2
      exact PongOk_clearTimers s k k2 (h.pongOk k2)
    · intro k2 hp
      by_cases he : k2 = k
      · subst he
        rw [clearTimers_pongTimer_false s k2 hk] at hp
        cases hp
      · rw [clearTimers_records_ne he] at hp ⊢
        exact h.pongImpPing k2 hp
    · intro k2 hk2
      rw [clearTimers_keys] at hk2
      have hne : k2 ≠ k := fun he => hk2 (he ▸ hk)
      rw [clearTimers_records_ne hne]
      exact h.fresh k2 hk2
  · rw [clearTimers_absent hk]
    exact h

theorem close_fst (s : WsStore) (k : String) :
    (WebsocketClient.close s k).1 =
      WebsocketClient.clearTimers (s.setConnectionState k WsConnectionState.closing) k := by
  unfold WebsocketClient.close
  dsimp only
  split <;> rfl

theorem sysInv_close (s : WsStore) (k : String) (h : SysInv s) :
    SysInv (WebsocketClient.close s k).1 := by
  rw [close_fst]
  exact sysInv_clearTimers _ k (sysInv_setConnectionState_nc s k _ (by simp) h)

theorem isWsOpen_of_connected (s : WsStore) (k : String) (h : SysInv s)
    (hc : (s.records k).connectionState = WsConnectionState.connected) :
    s.isWsOpen k = true := by
  obtain ⟨w, hw, hop⟩ := h.connectedOpen k hc
  unfold WsStore.isWsOpen
  rw [hw]
  exact hop

theorem sysInv_connect (o : WsOptions) (s : WsStore) (toff : Int) (nowMs : Nat)
    (sign : String → String → String) (h : SysInv s) :
    SysInv (WebsocketClient.connect o s defaultWsKey toff nowMs sign).1 := by
  unfold WebsocketClient.connect
  by_cases h1 : s.isWsOpen defaultWsKey
  · simp only [h1, if_true]
    exact h
  · simp only [h1, if_false, Bool.false_eq_true]
    by_cases h2 : s.isConnectionState defaultWsKey WsConnectionState.connecting
    · simp only [h2, if_true]
      exact h
    · simp only [h2, if_false, Bool.false_eq_true]
      set s1 := if s.isConnectionState defaultWsKey WsConnectionState.initial = true
        then s.setConnectionState defaultWsKey WsConnectionState.connecting else s with hs1
      have hS1 : SysInv s1 := by
        rw [hs1]
        split
        · exact sysInv_setConnectionState_nc s defaultWsKey _ (by simp) h
        · exact h
      have hnc : (s1.records defaultWsKey).connectionState ≠ WsConnectionState.connected := by
        rw [hs1]
        split
        · rw [setConnectionState_records_self]
          simp
        · intro hc
          exact h1 (isWsOpen_of_connected s defaultWsKey h hc)
      constructor
      · intro k2 hk2
        rw [setWs_records_ne hk2]
        exact hS1.nonDefault k2 hk2
      · intro k2 hc
        by_cases he : k2 = defaultWsKey
        · subst he
          rw [setWs_records_self] at hc
          exact absurd (by simpa using hc) hnc
        · rw [setWs_records_ne he] at hc ⊢
          exact hS1.connectedOpen k2 hc
      · intro k2
        by_cases he : k2 = defaultWsKey
        · subst he
          rw [setWs_records_self]
          exact hS1.pongOk _
        · rw [setWs_records_ne he]
          exact hS1.pongOk k2
      · intro k2
        by_cases he : k2 = defaultWsKey
        · subst he
          rw [setWs_records_self]
          exact hS1.pongImpPing _
        · rw [setWs_records_ne he]
          exact hS1.pongImpPing k2
      · intro k2 hk2
        have hne : k2 ≠ defaultWsKey := by
          intro he
          exact hk2 (he ▸ setWs_mem_keys_self s1 defaultWsKey _)
        have hmem : k2 ∉ s1.keys := fun hm => hk2 (setWs_keys_subset s1 defaultWsKey _ hm)
        rw [setWs_records_ne hne]
        exact hS1.fresh k2 hmem

theorem socketPresent_mem_keys (s : WsStore) (k : String) (h : SysInv s)
    (hg : socketPresent s k = true) : k ∈ s.keys := by
  by_contra hk
  rw [socketPresent, h.fresh k hk] at hg
  cases hg

theorem socketPresent_default (s : WsStore) (k : String) (h : SysInv s)
    (hg : socketPresent s k = true) : k = defaultWsKey := by
  by_contra hk
  rw [socketPresent, (h.nonDefault k hk).1] at hg
  cases hg

theorem onWsOpen_fst (o : WsOptions) (s : WsStore) (k : String) :
    (WebsocketClient.onWsOpen o s k).1 =
      (s.setConnectionState k WsConnectionState.connected).update k
        (fun r => { r with activePingTimer := true }) := rfl

theorem markSocketOpen_keys (s : WsStore) (k : String) :
    (markSocketOpen s k).keys = s.keys :=
  WsStore.keys_updateIfPresent s k _

theorem markSocketClosed_keys (s : WsStore) (k : String) :
    (markSocketClosed s k).keys = s.keys :=
  WsStore.keys_updateIfPresent s k _

theorem sysInv_transportOpen (o : WsOptions) (s : WsStore) (k : String) (h : SysInv s)
    (hg : socketPresent s k = true) :
    SysInv (WebsocketClient.onWsOpen o (markSocketOpen s k) k).1 := by
  have hkmem : k ∈ s.keys := socketPresent_mem_keys s k h hg
  obtain ⟨w, hw⟩ : ∃ w, (s.records k).ws = some w := by
    rw [socketPresent] at hg
    exact Option.isSome_iff_exists.mp hg
  rw [onWsOpen_fst]
  have hM : ∀ k2, k2 ≠ k → (markSocketOpen s k).records k2 = s.records k2 :=
    fun k2 he => WsStore.records_updateIfPresent_ne _ he
  have hMk : (markSocketOpen s k).records k =
      { s.records k with ws := ((s.records k).ws).map (fun w2 => { w2 with isOpen := true }) } :=
    WsStore.records_updateIfPresent_self _ hkmem
  have hkeysM : (markSocketOpen s k).keys = s.keys := markSocketOpen_keys s k
  have hkeysS : ((markSocketOpen s k).setConnectionState k WsConnectionState.connected).keys
      = s.keys := by
    rw [setConnectionState_keys]
    simp [hkeysM, hkmem]
  have hrec : ∀ k2, k2 ≠ k →
      (((markSocketOpen s k).setConnectionState k WsConnectionState.connected).update k
        (fun r => { r with activePingTimer := true })).records k2 = s.records k2 := by
    intro k2 he
    rw [WsStore.records_update_ne _ he, setConnectionState_records_ne he, hM k2 he]
  have hreck :
      (((markSocketOpen s k).setConnectionState k WsConnectionState.connected).update k
        (fun r => { r with activePingTimer := true })).records k =
      { (markSocketOpen s k).records k with
          connectionState := WsConnectionState.connected, activePingTimer := true } := by
    rw [WsStore.records_update_self, setConnectionState_records_self]
  constructor
  · intro k2 hk2
    have he : k2 ≠ k := fun heq => hk2 (heq ▸ socketPresent_default s k h hg)
    rw [hrec k2 he]
    exact h.nonDefault k2 hk2
  · intro k2 hc
    by_cases he : k2 = k
    · subst he
      rw [hreck]
      rw [hMk, hw]
      exact ⟨{ w with isOpen := true }, rfl, rfl⟩
    · rw [hrec k2 he] at hc ⊢
      exact h.connectedOpen k2 hc
  · intro k2
    by_cases he : k2 = k
    · subst he
      unfold PongOk
      rw [hreck, hMk]
      exact h.pongOk k2
    · unfold PongOk
      rw [hrec k2 he]
      exact h.pongOk k2
  · intro k2 hp
    by_cases he : k2 = k
    · subst he
      rw [hreck]
    · rw [hrec k2 he] at hp ⊢
      exact h.pongImpPing k2 hp
  · intro k2 hk2
    rw [WsStore.keys_update, hkeysS] at hk2
    simp only [hkmem, if_true] at hk2
    have he : k2 ≠ k := fun heq => hk2 (heq ▸ hkmem)
    rw [hrec k2 he]
    exact h.fresh k2 hk2

theorem sysInv_transportClose (o : WsOptions) (s : WsStore) (k : String) (h : SysInv s)
    (hg : socketPresent s k = true) :
    SysInv (WebsocketClient.onWsClose o (markSocketClosed s k) k).1 := by
  have hkmem : k ∈ s.keys := socketPresent_mem_keys s k h hg
  have hM : ∀ k2, k2 ≠ k → (markSocketClosed s k).records k2 = s.records k2 :=
    fun k2 he => WsStore.records_updateIfPresent_ne _ he
  have hMk : (markSocketClosed s k).records k =
      { s.records k with ws := ((s.records k).ws).map (fun w2 => { w2 with isOpen := false }) } :=
    WsStore.records_updateIfPresent_self _ hkmem
  have hkeysM : (markSocketClosed s k).keys = s.keys := markSocketClosed_keys s k
  have hkmemM : k ∈ (markSocketClosed s k).keys := by rw [hkeysM]; exact hkmem
  have hMpongOk : ∀ k2, PongOk ((markSocketClosed s k).records k2) := by
    intro k2
    by_cases he : k2 = k
    · subst he
      unfold PongOk
      rw [hMk]
      exact h.pongOk k2
    · unfold PongOk
      rw [hM k2 he]
      exact h.pongOk k2
  unfold WebsocketClient.onWsClose
  split
  · -- abnormal close: clear timers, possibly mark Reconnecting, schedule retry
    unfold WebsocketClient.reconnectWithDelay
    dsimp only
    have hCne : ∀ k2, k2 ≠ k →
        (WebsocketClient.clearTimers (markSocketClosed s k) k).records k2 = s.records k2 := by
      intro k2 he
      rw [clearTimers_records_ne he]
      exact hM k2 he
    have hCping : ((WebsocketClient.clearTimers (markSocketClosed s k) k).records k).activePingTimer = false :=
      clearTimers_pingTimer_false _ k hkmemM
    have hCpong : ((WebsocketClient.clearTimers (markSocketClosed s k) k).records k).activePongTimer = false :=
      clearTimers_pongTimer_false _ k hkmemM
    have hCpongOk : ∀ k2, PongOk ((WebsocketClient.clearTimers (markSocketClosed s k) k).records k2) :=
      fun k2 => PongOk_clearTimers _ k k2 (hMpongOk k2)
    have hCkeys : (WebsocketClient.clearTimers (markSocketClosed s k) k).keys = s.keys := by
      rw [clearTimers_keys, hkeysM]
    set sC := WebsocketClient.clearTimers (markSocketClosed s k) k with hsC
    split
    · -- state set to Reconnecting
      constructor
      · intro k2 hk2
        have he : k2 ≠ k := fun heq => hk2 (heq ▸ socketPresent_default s k h hg)
        rw [setConnectionState_records_ne he, hCne k2 he]
        exact h.nonDefault k2 hk2
      · intro k2 hc
        by_cases he : k2 = k
        · subst he
          rw [setConnectionState_records_self] at hc
          simp at hc
        · rw [setConnectionState_records_ne he] at hc ⊢
          rw [hCne k2 he] at hc ⊢
          exact h.connectedOpen k2 hc
      · intro k2
        by_cases he : k2 = k
        · subst he
          unfold PongOk
          rw [setConnectionState_records_self]
          exact hCpongOk _
        · unfold PongOk
          rw [setConnectionState_records_ne he]
          exact hCpongOk k2
      · intro k2 hp
        by_cases he : k2 = k
        · subst he
          rw [setConnectionState_records_self] at hp
          simp only at hp
          rw [hCpong] at hp
          cases hp
        · rw [setConnectionState_records_ne he] at hp ⊢
          rw [hCne k2 he] at hp ⊢
          exact h.pongImpPing k2 hp
      · intro k2 hk2
        have hkin : k ∈ sC.keys := by rw [hCkeys]; exact hkmem
        have hne : k2 ≠ k := by
          intro he
          exact hk2 (he ▸ setConnectionState_mem_keys_self sC k _)
        have hmem : k2 ∉ s.keys := by
          intro hm
          exact hk2 (setConnectionState_keys_subset sC k _ (by rw [hCkeys]; exact hm))
        rw [setConnectionState_records_ne hne, hCne k2 hne]
        exact h.fresh k2 hmem
    · -- state stays Connecting
      constructor
      · intro k2 hk2
        have he : k2 ≠ k := fun heq => hk2 (heq ▸ socketPresent_default s k h hg)
        rw [hCne k2 he]
        exact h.nonDefault k2 hk2
      · intro k2 hc
        by_cases he : k2 = k
        · subst he
          exfalso
          rename_i hcond
          rw [not_not] at hcond
          rw [WsStore.getConnectionState] at hcond
          rw [hcond] at hc
          cases hc
        · rw [hCne k2 he] at hc ⊢
          exact h.connectedOpen k2 hc
      · intro k2
        exact hCpongOk k2
      · intro k2 hp
        by_cases he : k2 = k
        · subst he
          rw [hCpong] at hp
          cases hp
        · rw [hCne k2 he] at hp ⊢
          exact h.pongImpPing k2 hp
      · intro k2 hk2
        rw [hCkeys] at hk2
        have he : k2 ≠ k := fun heq => hk2 (heq ▸ hkmem)
        rw [hCne k2 he]
        exact h.fresh k2 hk2
  · -- explicit close completing: state back to Initial
    constructor
    · intro k2 hk2
      have he : k2 ≠ k := fun heq => hk2 (heq ▸ socketPresent_default s k h hg)
      rw [setConnectionState_records_ne he, hM k2 he]
      exact h.nonDefault k2 hk2
    · intro k2 hc
      by_cases he : k2 = k
      · subst he
        rw [setConnectionState_records_self] at hc
        simp at hc
      · rw [setConnectionState_records_ne he] at hc ⊢
        rw [hM k2 he] at hc ⊢
        exact h.connectedOpen k2 hc
    · intro k2
      by_cases he : k2 = k
      · subst he
        unfold PongOk
        rw [setConnectionState_records_self]
        exact hMpongOk _
      · unfold PongOk
        rw [setConnectionState_records_ne he]
        exact hMpongOk k2
    · intro k2 hp
      by_cases he : k2 = k
      · subst he
        rw [setConnectionState_records_self] at hp ⊢
        simp only at hp ⊢
        rw [hMk] at hp ⊢
        exact h.pongImpPing k2 (by simpa using hp)
      · rw [setConnectionState_records_ne he] at hp ⊢
        rw [hM k2 he] at hp ⊢
        exact h.pongImpPing k2 hp
    · intro k2 hk2
      have hne : k2 ≠ k := by
        intro he
        subst he
        exact hk2 (setConnectionState_mem_keys_self (markSocketClosed s k2) k2 WsConnectionState.initial)
      have hmem : k2 ∉ s.keys := by
        intro hm
        exact hk2 (setConnectionState_keys_subset (markSocketClosed s k) k WsConnectionState.initial
          (by rw [hkeysM]; exact hm))
      rw [setConnectionState_records_ne hne, hM k2 hne]
      exact h.fresh k2 hmem

theorem sysInv_ping (o : WsOptions) (s : WsStore) (k : String) (h : SysInv s)
    (hg : (s.records k).activePingTimer = true) :
    SysInv (WebsocketClient.ping o s k).1 := by
  have hkmem : k ∈ s.keys := by
    by_contra hk
    rw [h.fresh k hk] at hg
    cases hg
  have hCkeys : (WebsocketClient.clearPongTimer s k).keys = s.keys := clearPongTimer_keys s k
  have hkmemC : k ∈ (WebsocketClient.clearPongTimer s k).keys := by rw [hCkeys]; exact hkmem
  unfold WebsocketClient.ping
  dsimp only
  constructor
  · intro k2 hk2
    by_cases he : k2 = k
    · subst he
      rw [WsStore.records_update_self]
      simp only
      rw [clearPongTimer_ws, clearPongTimer_connectionState]
      exact h.nonDefault k2 hk2
    · rw [WsStore.records_update_ne _ he, clearPongTimer_records_ne he]
      exact h.nonDefault k2 hk2
  · intro k2 hc
    by_cases he : k2 = k
    · subst he
      rw [WsStore.records_update_self] at hc ⊢
      simp only at hc ⊢
      rw [clearPongTimer_connectionState] at hc
      rw [clearPongTimer_ws]
      exact h.connectedOpen k2 hc
    · rw [WsStore.records_update_ne _ he, clearPongTimer_records_ne he] at hc ⊢
      exact h.connectedOpen k2 hc
  · intro k2
    by_cases he : k2 = k
    · subst he
      unfold PongOk
      rw [WsStore.records_update_self]
      have hflag : ((WebsocketClient.clearPongTimer s k2).records k2).activePongTimer = false :=
        clearPongTimer_pongTimer_false hkmem
      have hok := PongOk_clearPongTimer s k2 k2 (h.pongOk k2)
      unfold PongOk at hok
      rw [hflag] at hok
      simp only [Bool.false_eq_true, if_false] at hok
      simp [hok]
    · unfold PongOk
      rw [WsStore.records_update_ne _ he, clearPongTimer_records_ne he]
      exact h.pongOk k2
  · intro k2 hp
    by_cases he : k2 = k
    · subst he
      rw [WsStore.records_update_self]
      simp only
      rw [clearPongTimer_pingTimer]
      exact hg
    · rw [WsStore.records_update_ne _ he, clearPongTimer_records_ne he] at hp ⊢
      exact h.pongImpPing k2 hp
  · intro k2 hk2
    rw [WsStore.keys_update, hCkeys] at hk2
    simp only [hkmem, if_true] at hk2
    have hne : k2 ≠ k := fun he => hk2 (he ▸ hkmem)
    rw [WsStore.records_update_ne _ hne, clearPongTimer_records_ne hne]
    exact h.fresh k2 hk2

theorem sysInv_pongTimeoutFired (s : WsStore) (k : String) (h : SysInv s)
    (hg : (s.records k).activePongTimer = true) :
    SysInv (WebsocketClient.pongTimeoutFired s k).1 := by
  have hkmem : k ∈ s.keys := by
    by_contra hk
    rw [h.fresh k hk] at hg
    cases hg
  unfold WebsocketClient.pongTimeoutFired
  dsimp only
  have hreck : ((s.updateIfPresent k fun r =>
      if r.activePongTimer = true then
        { r with activePongTimer := false, pongCount := r.pongCount - 1 }
      else r).records k) =
      { s.records k with activePongTimer := false, pongCount := (s.records k).pongCount - 1 } := by
    rw [WsStore.records_updateIfPresent_self _ hkmem]
    simp [hg]
  constructor
  · intro k2 hk2
    by_cases he : k2 = k
    · subst he
      rw [hreck]
      exact h.nonDefault k2 hk2
    · rw [WsStore.records_updateIfPresent_ne _ he]
      exact h.nonDefault k2 hk2
  · intro k2 hc
    by_cases he : k2 = k
    · subst he
      rw [hreck] at hc ⊢
      exact h.connectedOpen k2 (by simpa using hc)
    · rw [WsStore.records_updateIfPresent_ne _ he] at hc ⊢
      exact h.connectedOpen k2 hc
  · intro k2
    by_cases he : k2 = k
    · subst he
      unfold PongOk
      rw [hreck]
      have hok := h.pongOk k2
      unfold PongOk at hok
      rw [hg] at hok
      simp only [if_true] at hok
      simp [hok]
    · unfold PongOk
      rw [WsStore.records_updateIfPresent_ne _ he]
      exact h.pongOk k2
  · intro k2 hp
    by_cases he : k2 = k
    · subst he
      rw [hreck] at hp
      simp at hp
    · rw [WsStore.records_updateIfPresent_ne _ he] at hp ⊢
      exact h.pongImpPing k2 hp
  · intro k2 hk2
    rw [WsStore.keys_updateIfPresent] at hk2
    have hne : k2 ≠ k := fun he => hk2 (he ▸ hkmem)
    rw [WsStore.records_updateIfPresent_ne _ hne]
    exact h.fresh k2 hk2

theorem sysInv_stepFn (o : WsOptions) (s : WsStore) (ev : WsEvent) (h : SysInv s) :
    SysInv (stepFn o s ev).1 := by
  cases ev with
  | subscribeCall ts =>
    show SysInv (WebsocketClient.subscribe o s ts).1
    rw [subscribe_fst]
    exact sysInv_addTopics o ts s h
  | unsubscribeCall ts =>
    show SysInv (WebsocketClient.unsubscribe o s ts).1
    rw [unsubscribe_fst]
    exact sysInv_deleteTopics o ts s h
  | closeCall k =>
    exact sysInv_close s k h
  | connectDefault toff now sign =>
    exact sysInv_connect o s toff now sign h
  | transportOpen k =>
    show SysInv (if socketPresent s k then WebsocketClient.onWsOpen o (markSocketOpen s k) k else (s, [])).1
    split
    · exact sysInv_transportOpen o s k h (by assumption)
    · exact h
  | transportClose k =>
    show SysInv (if socketPresent s k then WebsocketClient.onWsClose o (markSocketClosed s k) k else (s, [])).1
    split
    · exact sysInv_transportClose o s k h (by assumption)
    · exact h
  | inboundMessage k f =>
    show SysInv (if socketPresent s k then
        (match WebsocketClient.onWsMessage s k f with
          | WebsocketClient.MsgOutcome.ok s2 effs => (s2, effs)
          | WebsocketClient.MsgOutcome.parseError => (s, [])) else (s, [])).1
    split
    · cases hout : WebsocketClient.onWsMessage s k f with
      | ok s2 effs => exact sysInv_message s k f h s2 effs hout
      | parseError => exact h
    · exact h
  | pingTick k =>
    show SysInv (if (s.records k).activePingTimer then WebsocketClient.ping o s k else (s, [])).1
    split
    · exact sysInv_ping o s k h (by assumption)
    · exact h
  | pongTimeoutFire k =>
    show SysInv (if (s.records k).activePongTimer then WebsocketClient.pongTimeoutFired s k else (s, [])).1
    split
    · exact sysInv_pongTimeoutFired s k h (by assumption)
    · exact h

theorem sysInv_runEvents (o : WsOptions) (evs : List WsEvent) :
    ∀ s, SysInv s → SysInv (runEvents o s evs) := by
  induction evs with
  | nil => intro s h; exact h
  | cons ev rest ih =>
    intro s h
    exact ih (stepFn o s ev).1 (sysInv_stepFn o s ev h)

theorem sysInv_constructor (o : WsOptions) (toff : Int) (nowMs : Nat)
    (sign : String → String → String) :
    SysInv (WebsocketClient.constructorStore o toff nowMs sign).1 := by
  unfold WebsocketClient.constructorStore
  apply sysInv_connect
  constructor
  · intro k hk
    rw [setConnectionState_records_ne (by simpa [defaultWsKey] using hk)]
    exact ⟨rfl, by simp [WsStore.empty]⟩
  · intro k hc
    by_cases he : k = defaultWsKey
    · subst he
      rw [setConnectionState_records_self] at hc
      simp at hc
    · rw [setConnectionState_records_ne he] at hc
      simp [WsStore.empty] at hc
  · intro k
    by_cases he : k = defaultWsKey
    · subst he
      rw [setConnectionState_records_self]
      rfl
    · rw [setConnectionState_records_ne he]
      rfl
  · intro k hp
    by_cases he : k = defaultWsKey
    · subst he
      rw [setConnectionState_records_self] at hp
      simp [WsStore.empty] at hp
    · rw [setConnectionState_records_ne he] at hp
      simp [WsStore.empty] at hp
  · intro k hk
    have hne : k ≠ defaultWsKey := by
      intro he
      exact hk (he ▸ setConnectionState_mem_keys_self WsStore.empty defaultWsKey _)
    rw [setConnectionState_records_ne hne]
    rfl

theorem reachable_sysInv (o : WsOptions) (s : WsStore) (h : Reachable o s) : SysInv s := by
  obtain ⟨toff, nowMs, sign, evs, rfl⟩ := h
  exact sysInv_runEvents o evs _ (sysInv_constructor o toff nowMs sign)

theorem mem_concatMap {α β : Type} (f : α → List β) (b : β) :
    ∀ l : List α, b ∈ concatMap f l ↔ ∃ a, a ∈ l ∧ b ∈ f a := by
  intro l
  induction l with
  | nil => simp [concatMap]
  | cons a rest ih =>
    unfold concatMap
    rw [List.mem_append, ih]
    constructor
    · rintro (hb | ⟨a2, ha2, hb⟩)
      · exact ⟨a, List.mem_cons_self a rest, hb⟩
      · exact ⟨a2, List.mem_cons_of_mem a ha2, hb⟩
    · rintro ⟨a2, ha2, hb⟩
      rcases List.mem_cons.mp ha2 with he | hm
      · subst he
        exact Or.inl hb
      · exact Or.inr ⟨a2, hm, hb⟩

theorem tryWsSend_of_open (s : WsStore) (k : String) (frame : OutFrame)
    (h : s.isWsOpen k = true) :
    WebsocketClient.tryWsSend s k frame = [Effect.sentFrame k frame] := by
  unfold WebsocketClient.tryWsSend WsStore.getWs
  unfold WsStore.isWsOpen at h
  cases hw : (s.records k).ws with
  | none => rw [hw] at h; cases h
  | some w =>
    rw [hw] at h
    simp at h
    simp [h]

theorem sentFrame_mem_tryWsSend {s : WsStore} {k k2 : String} {frame f2 : OutFrame}
    (h : Effect.sentFrame k2 f2 ∈ WebsocketClient.tryWsSend s k frame) :
    k2 = k ∧ f2 = frame ∧ s.isWsOpen k = true := by
  unfold WebsocketClient.tryWsSend WsStore.getWs at h
  unfold WsStore.isWsOpen
  cases hw : (s.records k).ws with
  | none => rw [hw] at h; cases h
  | some w =>
    rw [hw] at h
    by_cases ho : w.isOpen <;> simp [ho] at h
    exact ⟨h.1, h.2, ho⟩

/-- Claim C4: `connect(key)` is idempotent under an active attempt: for every
key whose state is Connecting or whose stored socket is already open, calling
`connect` opens no new transport, stores no new socket handle and leaves the
store (hence the key's state) unchanged. -/
theorem c4_connect_idempotent (o : WsOptions) (s : WsStore) (k : String)
    (toff : Int) (nowMs : Nat) (sign : String → String → String)
    (h : s.isWsOpen k = true ∨ s.getConnectionState k = WsConnectionState.connecting) :
    (WebsocketClient.connect o s k toff nowMs sign).1 = s ∧
      ∀ k2 url, Effect.openedTransport k2 url ∉ (WebsocketClient.connect o s k toff nowMs sign).2 := by
  unfold WebsocketClient.connect
  rcases h with h | h
  · simp [h]
  · by_cases h1 : s.isWsOpen k
    · simp [h1]
    · have h2 : s.isConnectionState k WsConnectionState.connecting = true := by
        unfold WsStore.isConnectionState
        simp [h]
      simp [h1, h2]

/-- Witness for C4 at a concrete store holding an open socket under the
default key: connect changes nothing and opens no transport. -/
def sOpenFixture : WsStore :=
  WsStore.empty.setWs defaultWsKey { url := "u", isOpen := true }

theorem c4_connect_idempotent_witness :
    (WebsocketClient.connect oInv sOpenFixture defaultWsKey 0 0 sign0).1 = sOpenFixture ∧
      ∀ k2 url, Effect.openedTransport k2 url ∉
        (WebsocketClient.connect oInv sOpenFixture defaultWsKey 0 0 sign0).2 :=
  c4_connect_idempotent oInv sOpenFixture defaultWsKey 0 0 sign0 (Or.inl (by decide))

/-- Claim C9: with a missing key or secret, `getAuthParams` returns the empty
query string and logs a warning, and `connect` still proceeds to open the
(unauthenticated) transport: connect never fails purely for missing
credentials. -/
theorem c9_missing_credentials (o : WsOptions) (s : WsStore)
    (toff : Int) (nowMs : Nat) (sign : String → String → String)
    (hcred : strTruthy o.key = false ∨ strTruthy o.secret = false)
    (hg1 : s.isWsOpen defaultWsKey = false)
    (hg2 : s.getConnectionState defaultWsKey ≠ WsConnectionState.connecting) :
    (WebsocketClient.getAuthParams o toff nowMs sign).1 = "" ∧
      Effect.logWarning "Connot authenticate websocket, either api or private keys missing."
        ∈ (WebsocketClient.getAuthParams o toff nowMs sign).2 ∧
      Effect.openedTransport defaultWsKey
          (getWsUrl o ++ (WebsocketClient.getAuthParams o toff nowMs sign).1)
        ∈ (WebsocketClient.connect o s defaultWsKey toff nowMs sign).2 := by
  have hauth : WebsocketClient.getAuthParams o toff nowMs sign =
      ("", [Effect.logWarning "Connot authenticate websocket, either api or private keys missing."]) := by
    unfold WebsocketClient.getAuthParams
    rcases hcred with h | h <;> simp [h]
  refine ⟨by rw [hauth], by rw [hauth]; exact List.mem_singleton.mpr rfl, ?_⟩
  unfold WebsocketClient.connect
  have hg2b : s.isConnectionState defaultWsKey WsConnectionState.connecting = false := by
    unfold WsStore.isConnectionState
    simpa using hg2
  simp only [hg1, Bool.false_eq_true, if_false, hg2b]
  rw [hauth]
  simp

/-- Witness for C9: the default (credential-less) options against the freshly
initialized store. -/
def sInitFixture : WsStore :=
  WsStore.empty.setConnectionState defaultWsKey WsConnectionState.initial

theorem c9_missing_credentials_witness :
    (WebsocketClient.getAuthParams oInv 0 0 sign0).1 = "" ∧
      Effect.logWarning "Connot authenticate websocket, either api or private keys missing."
        ∈ (WebsocketClient.getAuthParams oInv 0 0 sign0).2 ∧
      Effect.openedTransport defaultWsKey
          (getWsUrl oInv ++ (WebsocketClient.getAuthParams oInv 0 0 sign0).1)
        ∈ (WebsocketClient.connect oInv sInitFixture defaultWsKey 0 0 sign0).2 :=
  c9_missing_credentials oInv sInitFixture 0 0 sign0 (Or.inl (by decide))
    (by decide) (by decide)

/-- Claim C10: constructing the client sets the default key's state to Initial
and then immediately runs `connect` on the default key: for every option set,
the constructor leaves the default key Connecting, opens a transport to the
computed URL, and every key's topic set is still empty - the connection
attempt happens before and regardless of any `subscribe` call.  (That `connect`
is `private`, so construction is the only external way to start the first
attempt, is a source-visibility fact recorded in the TypeScript declaration.) -/
theorem c10_constructor_connects (o : WsOptions) (toff : Int) (nowMs : Nat)
    (sign : String → String → String) :
    (WebsocketClient.constructorStore o toff nowMs sign).1.getConnectionState defaultWsKey
        = WsConnectionState.connecting ∧
      Effect.openedTransport defaultWsKey
          (getWsUrl o ++ (WebsocketClient.getAuthParams o toff nowMs sign).1)
        ∈ (WebsocketClient.constructorStore o toff nowMs sign).2 ∧
      ∀ k, (WebsocketClient.constructorStore o toff nowMs sign).1.getTopics k = [] := by
  unfold WebsocketClient.constructorStore WebsocketClient.connect
  have hg1 : (WsStore.empty.setConnectionState defaultWsKey WsConnectionState.initial).isWsOpen
      defaultWsKey = false := by decide
  have hg2 : (WsStore.empty.setConnectionState defaultWsKey WsConnectionState.initial).isConnectionState
      defaultWsKey WsConnectionState.connecting = false := by decide
  have hg3 : (WsStore.empty.setConnectionState defaultWsKey WsConnectionState.initial).isConnectionState
      defaultWsKey WsConnectionState.initial = true := by decide
  simp only [hg1, hg2, hg3, Bool.false_eq_true, if_false, if_true]
  refine ⟨?_, ?_, ?_⟩
  · unfold WsStore.getConnectionState
    rw [setWs_records_self, setConnectionState_records_self]
  · simp
  · intro k
    unfold WsStore.getTopics
    by_cases he : k = defaultWsKey
    · subst he
      rw [setWs_records_self, setConnectionState_records_self, setConnectionState_records_self]
      rfl
    · rw [setWs_records_ne he, setConnectionState_records_ne he, setConnectionState_records_ne he]
      rfl

/-- A store whose default key has a pong timeout pending. -/
def sPongFixture : WsStore :=
  WsStore.empty.update defaultWsKey (fun r => { r with activePongTimer := true, pongCount := 1 })

/-- A frame with a `success` field and a bare truthy `pong` marker but no
echoed request: `requestUtils.isWsPong` would accept it, the client's own
`isWsPong` does not. -/
def msgPongBare : WsMsg := { success := some true, pong := true }

/-- A full heartbeat echo: `request.op = "ping"`, `ret_msg = "pong"`,
`success = true`. -/
def msgEchoPong : WsMsg :=
  { success := some true, retMsg := some "pong", request := true, requestOp := some "ping" }

/-- A parsed frame with neither a `success` field nor a truthy `topic`. -/
def msgNoise : WsMsg := { retMsg := some "x" }

/-- A frame carrying both a `success` field and a `topic` field. -/
def msgSuccessTopic : WsMsg := { success := some false, topic := some "orderBook.BTC" }

/-- Claim C2, counterexample: a frame with a `success` field carrying a bare
`pong` marker (but no ping-request echo) is NOT treated as a heartbeat by the
dispatcher - the websocket client uses its module-local `isWsPong`, which has
no bare-marker clause - so the pending pong timeout stays armed and the frame
IS forwarded as a `response` event, contradicting the claim. -/
theorem c2_pong_dispatch_counterexample :
    WebsocketClient.onWsMessage sPongFixture defaultWsKey (InboundFrame.parsed msgPongBare)
        = WebsocketClient.MsgOutcome.ok sPongFixture [Effect.emittedResponse msgPongBare]
      ∧ (sPongFixture.records defaultWsKey).activePongTimer = true :=
  ⟨rfl, by decide⟩

/-- Claim C2, amended: for every inbound frame with a `success` field, the
frame is treated as a heartbeat reply exactly when it is a `ping` request echo
with `ret_msg = "pong"` and `success = true` (the module-local `isWsPong`; a
bare `ping`/`pong` marker alone does NOT qualify): then the pending pong
timeout for the key is cleared and nothing is forwarded; every other
`success`-frame (including bare-marker ones) is forwarded as a `response`
event with the store unchanged. -/
theorem c2_pong_dispatch_amended (s : WsStore) (k : String) (msg : WsMsg)
    (hs : msg.success.isSome = true) :
    (isWsPong msg = true → k ∈ s.keys →
      (((WebsocketClient.onWsMessageResponse s k msg).1.records k).activePongTimer = false
        ∧ (∀ m, Effect.emittedResponse m ∉ (WebsocketClient.onWsMessageResponse s k msg).2)
        ∧ (∀ m, Effect.emittedUpdate m ∉ (WebsocketClient.onWsMessageResponse s k msg).2)))
    ∧ (isWsPong msg = false →
        WebsocketClient.onWsMessageResponse s k msg = (s, [Effect.emittedResponse msg]))
    ∧ WebsocketClient.onWsMessage s k (InboundFrame.parsed msg)
        = WebsocketClient.MsgOutcome.ok (WebsocketClient.onWsMessageResponse s k msg).1
            (WebsocketClient.onWsMessageResponse s k msg).2 := by
  refine ⟨?_, ?_, ?_⟩
  · intro hp hk
    unfold WebsocketClient.onWsMessageResponse
    simp only [hp, if_true]
    exact ⟨clearPongTimer_pongTimer_false hk, by simp, by simp⟩
  · intro hp
    unfold WebsocketClient.onWsMessageResponse
    simp [hp]
  · unfold WebsocketClient.onWsMessage
    simp [hs]

theorem c2_pong_dispatch_amended_witness :
    ((WebsocketClient.onWsMessageResponse sPongFixture defaultWsKey msgEchoPong).1.records
        defaultWsKey).activePongTimer = false
      ∧ WebsocketClient.onWsMessageResponse sPongFixture defaultWsKey msgPongBare
          = (sPongFixture, [Effect.emittedResponse msgPongBare]) :=
  ⟨((c2_pong_dispatch_amended sPongFixture defaultWsKey msgEchoPong (by decide)).1
      (by decide) (by decide)).1,
    (c2_pong_dispatch_amended sPongFixture defaultWsKey msgPongBare (by decide)).2.1 (by decide)⟩

/-- Claim C8, counterexample: a malformed inbound frame is NOT logged as
unhandled and dropped - `JSON.parse` raises and the message handler has no
try/catch, so the handler aborts with an uncaught parse error (and in
particular does not produce the logged-unhandled outcome). -/
theorem c8_unhandled_counterexample :
    WebsocketClient.onWsMessage WsStore.empty defaultWsKey InboundFrame.malformed
        = WebsocketClient.MsgOutcome.parseError
      ∧ WebsocketClient.onWsMessage WsStore.empty defaultWsKey InboundFrame.malformed
          ≠ WebsocketClient.MsgOutcome.ok WsStore.empty [Effect.logUnhandled] :=
  ⟨rfl, fun h => WebsocketClient.MsgOutcome.noConfusion h⟩

/-- Claim C8, amended: a frame that parses to an object with neither a
`success` field nor a truthy `topic` field is logged as unhandled and dropped
with no state change and no event; a frame containing a `success` field is
never forwarded as an `update` event even when it also carries a `topic`
field; a malformed frame aborts the handler with an uncaught parse error
instead of being logged. -/
theorem c8_unhandled_amended (s : WsStore) (k : String) (msg : WsMsg) :
    (msg.success = none → topicTruthy msg = false →
      WebsocketClient.onWsMessage s k (InboundFrame.parsed msg)
        = WebsocketClient.MsgOutcome.ok s [Effect.logUnhandled])
    ∧ (msg.success.isSome = true → ∀ s2 effs,
        WebsocketClient.onWsMessage s k (InboundFrame.parsed msg)
            = WebsocketClient.MsgOutcome.ok s2 effs →
          ∀ m, Effect.emittedUpdate m ∉ effs)
    ∧ WebsocketClient.onWsMessage s k InboundFrame.malformed
        = WebsocketClient.MsgOutcome.parseError := by
  refine ⟨?_, ?_, rfl⟩
  · intro h1 h2
    unfold WebsocketClient.onWsMessage
    simp [h1, h2]
  · intro hs s2 effs heq m
    unfold WebsocketClient.onWsMessage at heq
    simp only [hs, if_true] at heq
    unfold WebsocketClient.onWsMessageResponse at heq
    by_cases hp : isWsPong msg
    · simp only [hp, if_true] at heq
      cases heq
      simp
    · simp only [hp, if_false, Bool.false_eq_true] at heq
      cases heq
      simp

theorem c8_unhandled_amended_witness :
    WebsocketClient.onWsMessage WsStore.empty defaultWsKey (InboundFrame.parsed msgNoise)
        = WebsocketClient.MsgOutcome.ok WsStore.empty [Effect.logUnhandled]
      ∧ Effect.emittedUpdate msgSuccessTopic ∉ [Effect.emittedResponse msgSuccessTopic] :=
  ⟨(c8_unhandled_amended WsStore.empty defaultWsKey msgNoise).1 (by decide) (by decide),
    (c8_unhandled_amended WsStore.empty defaultWsKey msgSuccessTopic).2.1 (by decide)
      WsStore.empty [Effect.emittedResponse msgSuccessTopic] rfl msgSuccessTopic⟩

theorem setConnectionState_getTopics (s : WsStore) (k : String) (st : WsConnectionState)
    (k2 : String) : (s.setConnectionState k st).getTopics k2 = s.getTopics k2 := by
  unfold WsStore.getTopics
  by_cases he : k2 = k
  · subst he
    rw [setConnectionState_records_self]
  · rw [setConnectionState_records_ne he]

theorem setConnectionState_isWsOpen (s : WsStore) (k : String) (st : WsConnectionState)
    (k2 : String) : (s.setConnectionState k st).isWsOpen k2 = s.isWsOpen k2 := by
  unfold WsStore.isWsOpen
  by_cases he : k2 = k
  · subst he
    rw [setConnectionState_records_self]
  · rw [setConnectionState_records_ne he]

theorem onWsOpen_effects (o : WsOptions) (s : WsStore) (k : String) :
    (WebsocketClient.onWsOpen o s k).2 =
      (if s.isConnectionState k WsConnectionState.connecting = true then [Effect.emitted "open"]
        else if s.isConnectionState k WsConnectionState.reconnecting = true then
          [Effect.emitted "reconnected"]
        else [])
      ++ concatMap (fun k2 => WebsocketClient.tryWsSend (s.setConnectionState k WsConnectionState.connected)
            k2 (OutFrame.subscribe ((s.setConnectionState k WsConnectionState.connected).getTopics k2)))
          (s.setConnectionState k WsConnectionState.connected).getKeys
      ++ [Effect.startedPingInterval k o.pingInterval] := by
  unfold WebsocketClient.onWsOpen WebsocketClient.requestSubscribeTopics
  rfl

/-- Claim C1, amended: when the transport open event fires for a key's socket,
that key's state becomes Connected, `open` is emitted when the prior state was
Connecting and `reconnected` when it was Reconnecting, the repeating heartbeat
ping timer is started, and a subscribe frame whose topic list equals exactly
the Subscription Store's current set is sent for every key in the store WHOSE
SOCKET EXISTS AND IS OPEN - keys without an open socket are skipped silently
by the optional-chained send, so their stored topic sets are not transmitted
(every frame that is sent carries exactly the stored set of its key). -/
theorem c1_open_replay_amended (o : WsOptions) (s : WsStore) (k : String) :
    (WebsocketClient.onWsOpen o s k).1.getConnectionState k = WsConnectionState.connected
    ∧ (s.getConnectionState k = WsConnectionState.connecting →
        Effect.emitted "open" ∈ (WebsocketClient.onWsOpen o s k).2)
    ∧ (s.getConnectionState k = WsConnectionState.reconnecting →
        Effect.emitted "reconnected" ∈ (WebsocketClient.onWsOpen o s k).2)
    ∧ (∀ k2, k2 ∈ s.getKeys → s.isWsOpen k2 = true →
        Effect.sentFrame k2 (OutFrame.subscribe (s.getTopics k2))
          ∈ (WebsocketClient.onWsOpen o s k).2)
    ∧ (∀ k2 f2, Effect.sentFrame k2 f2 ∈ (WebsocketClient.onWsOpen o s k).2 →
        f2 = OutFrame.subscribe (s.getTopics k2) ∧ s.isWsOpen k2 = true)
    ∧ ((WebsocketClient.onWsOpen o s k).1.records k).activePingTimer = true
    ∧ Effect.startedPingInterval k o.pingInterval ∈ (WebsocketClient.onWsOpen o s k).2 := by
  refine ⟨?_, ?_, ?_, ?_, ?_, ?_, ?_⟩
  · rw [onWsOpen_fst]
    unfold WsStore.getConnectionState
    rw [WsStore.records_update_self]
    simp only
    rw [setConnectionState_records_self]
  · intro hc
    rw [onWsOpen_effects]
    have hb : s.isConnectionState k WsConnectionState.connecting = true := by
      unfold WsStore.isConnectionState
      simp [hc]
    rw [hb]
    simp
  · intro hc
    rw [onWsOpen_effects]
    have hb : s.isConnectionState k WsConnectionState.reconnecting = true := by
      unfold WsStore.isConnectionState
      simp [hc]
    have hb2 : s.isConnectionState k WsConnectionState.connecting = false := by
      unfold WsStore.isConnectionState
      simp [hc]
    rw [hb, hb2]
    simp
  · intro k2 hk2 hopen
    rw [onWsOpen_effects]
    apply List.mem_append_left
    apply List.mem_append_right
    apply (mem_concatMap _ _ _).mpr
    refine ⟨k2, ?_, ?_⟩
    · show k2 ∈ (s.setConnectionState k WsConnectionState.connected).keys
      exact setConnectionState_keys_subset s k _ hk2
    · rw [tryWsSend_of_open]
      · rw [setConnectionState_getTopics]
        exact List.mem_singleton.mpr rfl
      · rw [setConnectionState_isWsOpen]
        exact hopen
  · intro k2 f2 hmem
    rw [onWsOpen_effects] at hmem
    rcases List.mem_append.mp hmem with h1 | h1
    · rcases List.mem_append.mp h1 with h2 | h2
      · exfalso
        revert h2
        split
        · simp
        · split <;> simp
      · obtain ⟨a, _, hin⟩ := (mem_concatMap _ _ _).mp h2
        obtain ⟨hka, hf, hop⟩ := sentFrame_mem_tryWsSend hin
        subst hka
        rw [setConnectionState_getTopics] at hf
        rw [setConnectionState_isWsOpen] at hop
        exact ⟨hf, hop⟩
    · simp at h1
  · rw [onWsOpen_fst]
    rw [WsStore.records_update_self]
  · rw [onWsOpen_effects]
    apply List.mem_append_right
    simp

/-- Store as it stands when the first transport open event fires: constructor
output with the default key's socket marked open. -/
def sWFixture : WsStore :=
  markSocketOpen (WebsocketClient.constructorStore oInv 0 0 sign0).1 defaultWsKey

theorem c1_open_replay_amended_witness :
    (WebsocketClient.onWsOpen oInv sWFixture defaultWsKey).1.getConnectionState defaultWsKey
        = WsConnectionState.connected
      ∧ Effect.emitted "open" ∈ (WebsocketClient.onWsOpen oInv sWFixture defaultWsKey).2
      ∧ Effect.sentFrame defaultWsKey (OutFrame.subscribe (sWFixture.getTopics defaultWsKey))
          ∈ (WebsocketClient.onWsOpen oInv sWFixture defaultWsKey).2
      ∧ Effect.startedPingInterval defaultWsKey oInv.pingInterval
          ∈ (WebsocketClient.onWsOpen oInv sWFixture defaultWsKey).2 :=
  ⟨(c1_open_replay_amended oInv sWFixture defaultWsKey).1,
    (c1_open_replay_amended oInv sWFixture defaultWsKey).2.1 (by decide),
    (c1_open_replay_amended oInv sWFixture defaultWsKey).2.2.2.1 defaultWsKey
      (by decide) (by decide),
    (c1_open_replay_amended oInv sWFixture defaultWsKey).2.2.2.2.2.2⟩

/-- Linear-mode store after construction and a `subscribe("wallet")` call:
the topic is stored under the `private` key, which holds no socket. -/
def sLinFixture : WsStore :=
  runEvents oLin (WebsocketClient.constructorStore oLin 0 0 sign0).1
    [WsEvent.subscribeCall ["wallet"]]

/-- Claim C1, counterexample: in linear mode, a reachable store holds the
topic `wallet` under key `private`; when the transport open event fires for the
default key's socket, no subscribe frame carrying `private`'s stored topic set
is sent (the only frame sent is the default key's empty set) - the claim's
"for every key in the store a subscribe frame ... is sent" is false. -/
theorem c1_open_replay_counterexample :
    Reachable oLin sLinFixture
    ∧ "private" ∈ sLinFixture.getKeys
    ∧ sLinFixture.getTopics "private" = ["wallet"]
    ∧ socketPresent sLinFixture defaultWsKey = true
    ∧ Effect.sentFrame "private" (OutFrame.subscribe ["wallet"])
        ∉ (stepFn oLin sLinFixture (WsEvent.transportOpen defaultWsKey)).2
    ∧ Effect.sentFrame defaultWsKey (OutFrame.subscribe [])
        ∈ (stepFn oLin sLinFixture (WsEvent.transportOpen defaultWsKey)).2 :=
  ⟨⟨0, 0, sign0, [WsEvent.subscribeCall ["wallet"]], rfl⟩,
    by decide, by decide, by decide, by decide, by decide⟩

theorem addTopics_getTopics_unfold (o : WsOptions) (ts : List String) (s : WsStore) (k : String) :
    (WebsocketClient.addTopics o s ts).getTopics k
      = ((WebsocketClient.addTopics o s ts).records k).subscribedTopics := rfl

theorem addTopics_isWsOpen (o : WsOptions) (ts : List String) (s : WsStore) (k : String) :
    (WebsocketClient.addTopics o s ts).isWsOpen k = s.isWsOpen k := by
  unfold WsStore.isWsOpen
  rw [(addTopics_nonTopicFields o ts s k).2.1]

theorem addTopics_getConnectionState (o : WsOptions) (ts : List String) (s : WsStore) (k : String) :
    (WebsocketClient.addTopics o s ts).getConnectionState k = s.getConnectionState k := by
  unfold WsStore.getConnectionState
  rw [(addTopics_nonTopicFields o ts s k).1]

theorem deleteTopics_isWsOpen (o : WsOptions) (ts : List String) (s : WsStore) (k : String) :
    (WebsocketClient.deleteTopics o s ts).isWsOpen k = s.isWsOpen k := by
  unfold WsStore.isWsOpen
  rw [(deleteTopics_nonTopicFields o ts s k).2.1]

theorem deleteTopics_getConnectionState (o : WsOptions) (ts : List String) (s : WsStore) (k : String) :
    (WebsocketClient.deleteTopics o s ts).getConnectionState k = s.getConnectionState k := by
  unfold WsStore.getConnectionState
  rw [(deleteTopics_nonTopicFields o ts s k).1]

theorem subscribe_effects_of_connected (o : WsOptions) (s : WsStore) (ts : List String)
    (hc : (WebsocketClient.addTopics o s ts).isConnectionState defaultWsKey
        WsConnectionState.connected = true) :
    (WebsocketClient.subscribe o s ts).2 =
      concatMap (fun k => WebsocketClient.tryWsSend (WebsocketClient.addTopics o s ts) k
          (OutFrame.subscribe ((WebsocketClient.addTopics o s ts).getTopics k)))
        (WebsocketClient.addTopics o s ts).getKeys := by
  unfold WebsocketClient.subscribe WebsocketClient.requestSubscribeTopics
  simp [hc]

theorem unsubscribe_effects_of_connected (o : WsOptions) (s : WsStore) (ts : List String)
    (hc : (WebsocketClient.deleteTopics o s ts).isConnectionState defaultWsKey
        WsConnectionState.connected = true) :
    (WebsocketClient.unsubscribe o s ts).2 =
      concatMap (fun k => WebsocketClient.tryWsSend (WebsocketClient.deleteTopics o s ts) k
          (OutFrame.unsubscribe ((WebsocketClient.deleteTopics o s ts).getTopics k)))
        (WebsocketClient.deleteTopics o s ts).getKeys := by
  unfold WebsocketClient.unsubscribe WebsocketClient.requestUnsubscribeTopics
  simp [hc]

/-- Claim C3: `subscribe`/`unsubscribe` mutate the Subscription Store
unconditionally for each resolved key, and when the resolved key is currently
Connected (in any reachable store) a subscribe/unsubscribe frame listing that
key's entire current topic set is immediately sent over that key's socket.
(In reachable stores a Connected key is necessarily the default key, so the
source's gate on the default key's state coincides with the claim's gate on
the resolved key.) -/
theorem c3_subscribe_connected_sends (o : WsOptions) (s : WsStore) (ts : List String)
    (t : String) (hr : Reachable o s) (ht : t ∈ ts) :
    t ∈ (WebsocketClient.subscribe o s ts).1.getTopics (getWsKeyForTopic o t)
    ∧ t ∉ (WebsocketClient.unsubscribe o s ts).1.getTopics (getWsKeyForTopic o t)
    ∧ (s.getConnectionState (getWsKeyForTopic o t) = WsConnectionState.connected →
        Effect.sentFrame (getWsKeyForTopic o t)
            (OutFrame.subscribe ((WebsocketClient.subscribe o s ts).1.getTopics (getWsKeyForTopic o t)))
          ∈ (WebsocketClient.subscribe o s ts).2)
    ∧ (s.getConnectionState (getWsKeyForTopic o t) = WsConnectionState.connected →
        Effect.sentFrame (getWsKeyForTopic o t)
            (OutFrame.unsubscribe ((WebsocketClient.unsubscribe o s ts).1.getTopics (getWsKeyForTopic o t)))
          ∈ (WebsocketClient.unsubscribe o s ts).2) := by
  have inv := reachable_sysInv o s hr
  refine ⟨?_, ?_, ?_, ?_⟩
  · rw [subscribe_fst]
    exact addTopics_mem o ts s t ht
  · rw [unsubscribe_fst]
    apply deleteTopics_not_mem o ts s t ht
    intro k2 hk2
    rw [inv.fresh k2 hk2]
  · intro hc
    have hkd : getWsKeyForTopic o t = defaultWsKey := by
      by_contra hne
      exact (inv.nonDefault _ hne).2 hc
    have hopen : s.isWsOpen (getWsKeyForTopic o t) = true := by
      apply isWsOpen_of_connected s _ inv
      exact hc
    have hgate : (WebsocketClient.addTopics o s ts).isConnectionState defaultWsKey
        WsConnectionState.connected = true := by
      unfold WsStore.isConnectionState
      rw [addTopics_getConnectionState, ← hkd, hc]
      simp
    rw [subscribe_fst, subscribe_effects_of_connected o s ts hgate]
    apply (mem_concatMap _ _ _).mpr
    refine ⟨getWsKeyForTopic o t, addTopics_mem_keys o ts s t ht, ?_⟩
    rw [tryWsSend_of_open]
    · exact List.mem_singleton.mpr rfl
    · rw [addTopics_isWsOpen]
      exact hopen
  · intro hc
    have hkd : getWsKeyForTopic o t = defaultWsKey := by
      by_contra hne
      exact (inv.nonDefault _ hne).2 hc
    have hopen : s.isWsOpen (getWsKeyForTopic o t) = true := by
      apply isWsOpen_of_connected s _ inv
      exact hc
    have hgate : (WebsocketClient.deleteTopics o s ts).isConnectionState defaultWsKey
        WsConnectionState.connected = true := by
      unfold WsStore.isConnectionState
      rw [deleteTopics_getConnectionState, ← hkd, hc]
      simp
    have hkeys : getWsKeyForTopic o t ∈ (WebsocketClient.deleteTopics o s ts).getKeys := by
      show getWsKeyForTopic o t ∈ (WebsocketClient.deleteTopics o s ts).keys
      rw [deleteTopics_keys]
      have hmem : getWsKeyForTopic o t ∈ s.keys := by
        by_contra hk2
        have := congrArg WsStoredState.connectionState (inv.fresh _ hk2)
        unfold WsStore.getConnectionState at hc
        rw [hc] at this
        cases this
      exact hmem
    rw [unsubscribe_fst, unsubscribe_effects_of_connected o s ts hgate]
    apply (mem_concatMap _ _ _).mpr
    refine ⟨getWsKeyForTopic o t, hkeys, ?_⟩
    rw [tryWsSend_of_open]
    · exact List.mem_singleton.mpr rfl
    · rw [deleteTopics_isWsOpen]
      exact hopen

/-- Connected inverse-mode store: constructor output after the transport open
event for the default key. -/
def sConnFixture : WsStore :=
  runEvents oInv (WebsocketClient.constructorStore oInv 0 0 sign0).1
    [WsEvent.transportOpen defaultWsKey]

theorem c3_subscribe_connected_sends_witness :
    "orderBook.BTC" ∈ (WebsocketClient.subscribe oInv sConnFixture ["orderBook.BTC"]).1.getTopics
        (getWsKeyForTopic oInv "orderBook.BTC")
      ∧ Effect.sentFrame (getWsKeyForTopic oInv "orderBook.BTC")
          (OutFrame.subscribe ((WebsocketClient.subscribe oInv sConnFixture ["orderBook.BTC"]).1.getTopics
            (getWsKeyForTopic oInv "orderBook.BTC")))
        ∈ (WebsocketClient.subscribe oInv sConnFixture ["orderBook.BTC"]).2 := by
  have h := c3_subscribe_connected_sends oInv sConnFixture ["orderBook.BTC"] "orderBook.BTC"
    ⟨0, 0, sign0, [WsEvent.transportOpen defaultWsKey], rfl⟩ (List.mem_singleton.mpr rfl)
  exact ⟨h.1, h.2.2.1 (by decide)⟩

theorem markSocketClosed_getConnectionState (s : WsStore) (k k2 : String) :
    (markSocketClosed s k).getConnectionState k2 = s.getConnectionState k2 := by
  unfold WsStore.getConnectionState markSocketClosed
  rw [WsStore.records_updateIfPresent]
  by_cases h1 : k ∈ s.keys
  · by_cases h2 : k2 = k <;> simp [h1, h2]
  · simp [h1]

/-- Claim C5: in any reachable store, a transport close event can only fire
for the default key (the only key ever holding a socket); when the key's state
is not Closing the timers are cleared, exactly one delayed retry connect for
that key is scheduled with the configured reconnect delay and `reconnect` is
emitted; when the state is Closing the state returns to Initial and `close` is
emitted with no reconnect scheduled. -/
theorem c5_close_reconnect (o : WsOptions) (s : WsStore) (k : String) (w : WsSocket)
    (hr : Reachable o s) (hw : (s.records k).ws = some w) :
    k = defaultWsKey
    ∧ (s.getConnectionState k ≠ WsConnectionState.closing →
        (stepFn o s (WsEvent.transportClose k)).2
            = [Effect.scheduledReconnect k o.reconnectTimeout, Effect.emitted "reconnect"]
          ∧ ((stepFn o s (WsEvent.transportClose k)).1.records k).activePingTimer = false
          ∧ ((stepFn o s (WsEvent.transportClose k)).1.records k).activePongTimer = false)
    ∧ (s.getConnectionState k = WsConnectionState.closing →
        (stepFn o s (WsEvent.transportClose k)).2 = [Effect.emitted "close"]
          ∧ (stepFn o s (WsEvent.transportClose k)).1.getConnectionState k
              = WsConnectionState.initial) := by
  have inv := reachable_sysInv o s hr
  have hsock : socketPresent s k = true := by
    unfold socketPresent
    rw [hw]
    rfl
  have hkd : k = defaultWsKey := socketPresent_default s k inv hsock
  subst hkd
  have hkmem : defaultWsKey ∈ s.keys := socketPresent_mem_keys s defaultWsKey inv hsock
  have hkmemM : defaultWsKey ∈ (markSocketClosed s defaultWsKey).keys := by
    rw [markSocketClosed_keys]
    exact hkmem
  have hstep : stepFn o s (WsEvent.transportClose defaultWsKey)
      = if socketPresent s defaultWsKey then
          WebsocketClient.onWsClose o (markSocketClosed s defaultWsKey) defaultWsKey
        else (s, []) := rfl
  rw [hstep]
  simp only [hsock, if_true]
  refine ⟨by trivial, ?_, ?_⟩
  · intro hnc
    have hcond : (markSocketClosed s defaultWsKey).getConnectionState defaultWsKey
        ≠ WsConnectionState.closing := by
      rw [markSocketClosed_getConnectionState]
      exact hnc
    unfold WebsocketClient.onWsClose
    rw [if_pos hcond]
    unfold WebsocketClient.reconnectWithDelay
    dsimp only
    refine ⟨rfl, ?_, ?_⟩
    · split
      · rw [setConnectionState_records_self]
        simp only
        exact clearTimers_pingTimer_false _ defaultWsKey hkmemM
      · exact clearTimers_pingTimer_false _ defaultWsKey hkmemM
    · split
      · rw [setConnectionState_records_self]
        simp only
        exact clearTimers_pongTimer_false _ defaultWsKey hkmemM
      · exact clearTimers_pongTimer_false _ defaultWsKey hkmemM
  · intro hc
    have hcond : ¬ ((markSocketClosed s defaultWsKey).getConnectionState defaultWsKey
        ≠ WsConnectionState.closing) := by
      rw [markSocketClosed_getConnectionState, hc]
      simp
    unfold WebsocketClient.onWsClose
    rw [if_neg hcond]
    refine ⟨rfl, ?_⟩
    unfold WsStore.getConnectionState
    rw [setConnectionState_records_self]

/-- Constructor-output store (socket stored, state Connecting). -/
def sConstructFixture : WsStore := (WebsocketClient.constructorStore oInv 0 0 sign0).1

/-- The socket the constructor stores for the default key. -/
def wFixture : WsSocket := { url := "wss://stream-testnet.bybit.com/realtime", isOpen := false }

theorem c5_close_reconnect_witness :
    (stepFn oInv sConstructFixture (WsEvent.transportClose defaultWsKey)).2
        = [Effect.scheduledReconnect defaultWsKey oInv.reconnectTimeout, Effect.emitted "reconnect"]
      ∧ ((stepFn oInv sConstructFixture (WsEvent.transportClose defaultWsKey)).1.records
          defaultWsKey).activePingTimer = false := by
  have h := c5_close_reconnect oInv sConstructFixture defaultWsKey wFixture
    ⟨0, 0, sign0, [], rfl⟩ (by decide)
  exact ⟨(h.2.1 (by decide)).1, (h.2.1 (by decide)).2.1⟩

theorem getTopics_update_of (s : WsStore) (k k2 : String) (f : WsStoredState → WsStoredState)
    (hf : ∀ r, (f r).subscribedTopics = r.subscribedTopics) :
    (s.update k f).getTopics k2 = s.getTopics k2 := by
  unfold WsStore.getTopics
  rw [WsStore.records_update]
  by_cases he : k2 = k
  · subst he
    simp [hf]
  · simp [he]

theorem getTopics_updateIfPresent_of (s : WsStore) (k k2 : String) (f : WsStoredState → WsStoredState)
    (hf : ∀ r, (f r).subscribedTopics = r.subscribedTopics) :
    (s.updateIfPresent k f).getTopics k2 = s.getTopics k2 := by
  unfold WsStore.getTopics
  rw [WsStore.records_updateIfPresent]
  by_cases h1 : k ∈ s.keys
  · by_cases he : k2 = k
    · subst he
      simp [h1, hf]
    · simp [h1, he]
  · simp [h1]

theorem clearPongTimer_getTopics (s : WsStore) (k k2 : String) :
    (WebsocketClient.clearPongTimer s k).getTopics k2 = s.getTopics k2 :=
  getTopics_updateIfPresent_of s k k2 _ (by intro r; split <;> rfl)

theorem clearTimers_getTopics (s : WsStore) (k k2 : String) :
    (WebsocketClient.clearTimers s k).getTopics k2 = s.getTopics k2 := by
  unfold WsStore.getTopics
  rw [clearTimers_topics]

theorem setWs_getTopics (s : WsStore) (k : String) (w : WsSocket) (k2 : String) :
    (s.setWs k w).getTopics k2 = s.getTopics k2 :=
  getTopics_update_of s k k2 _ (fun _ => rfl)

theorem connect_getTopics (o : WsOptions) (s : WsStore) (k : String) (toff : Int) (nowMs : Nat)
    (sign : String → String → String) (k2 : String) :
    (WebsocketClient.connect o s k toff nowMs sign).1.getTopics k2 = s.getTopics k2 := by
  unfold WebsocketClient.connect
  by_cases h1 : s.isWsOpen k
  · simp [h1]
  · simp only [h1, Bool.false_eq_true, if_false]
    by_cases h2 : s.isConnectionState k WsConnectionState.connecting
    · simp [h2]
    · simp only [h2, Bool.false_eq_true, if_false]
      rw [setWs_getTopics]
      split
      · exact setConnectionState_getTopics s k _ k2
      · rfl

theorem onWsOpen_getTopics (o : WsOptions) (s : WsStore) (k k2 : String) :
    (WebsocketClient.onWsOpen o s k).1.getTopics k2 = s.getTopics k2 := by
  rw [onWsOpen_fst]
  rw [getTopics_update_of _ _ _ _ (by intro r; rfl)]
  exact setConnectionState_getTopics s k _ k2

theorem markSocketOpen_getTopics (s : WsStore) (k k2 : String) :
    (markSocketOpen s k).getTopics k2 = s.getTopics k2 :=
  getTopics_updateIfPresent_of s k k2 _ (by intro r; rfl)

theorem markSocketClosed_getTopics (s : WsStore) (k k2 : String) :
    (markSocketClosed s k).getTopics k2 = s.getTopics k2 :=
  getTopics_updateIfPresent_of s k k2 _ (by intro r; rfl)

theorem onWsClose_getTopics (o : WsOptions) (s : WsStore) (k k2 : String) :
    (WebsocketClient.onWsClose o s k).1.getTopics k2 = s.getTopics k2 := by
  unfold WebsocketClient.onWsClose
  split
  · unfold WebsocketClient.reconnectWithDelay
    dsimp only
    split
    · rw [setConnectionState_getTopics]
      exact clearTimers_getTopics s k k2
    · exact clearTimers_getTopics s k k2
  · exact setConnectionState_getTopics s k _ k2

theorem ping_getTopics (o : WsOptions) (s : WsStore) (k k2 : String) :
    (WebsocketClient.ping o s k).1.getTopics k2 = s.getTopics k2 := by
  unfold WebsocketClient.ping
  dsimp only
  rw [getTopics_update_of _ _ _ _ (by intro r; rfl)]
  exact clearPongTimer_getTopics s k k2

theorem pongTimeoutFired_getTopics (s : WsStore) (k k2 : String) :
    (WebsocketClient.pongTimeoutFired s k).1.getTopics k2 = s.getTopics k2 :=
  getTopics_updateIfPresent_of s k k2 _ (by intro r; split <;> rfl)

theorem close_getTopics (s : WsStore) (k k2 : String) :
    (WebsocketClient.close s k).1.getTopics k2 = s.getTopics k2 := by
  rw [close_fst, clearTimers_getTopics]
  exact setConnectionState_getTopics s k _ k2

theorem onWsMessage_getTopics (s : WsStore) (k : String) (f : InboundFrame) (k2 : String) :
    ∀ s2 effs, WebsocketClient.onWsMessage s k f = WebsocketClient.MsgOutcome.ok s2 effs →
      s2.getTopics k2 = s.getTopics k2 := by
  intro s2 effs heq
  cases f with
  | malformed => cases heq
  | parsed msg =>
    unfold WebsocketClient.onWsMessage at heq
    by_cases h1 : msg.success.isSome
    · simp only [h1, if_true] at heq
      unfold WebsocketClient.onWsMessageResponse at heq
      by_cases h2 : isWsPong msg
      · simp only [h2, if_true] at heq
        cases heq
        exact clearPongTimer_getTopics s k k2
      · simp only [h2, Bool.false_eq_true, if_false] at heq
        cases heq
        rfl
    · simp only [h1, Bool.false_eq_true, if_false] at heq
      by_cases h2 : topicTruthy msg
      · simp only [h2, if_true] at heq
        cases heq
        rfl
      · simp only [h2, Bool.false_eq_true, if_false] at heq
        cases heq
        rfl

/-- Claim C6: no step other than an explicit `unsubscribe` ever removes a
stored topic (membership is preserved by every non-unsubscribe step), and
every step that is neither `subscribe` nor `unsubscribe` - in particular every
disconnect, reconnect, close, message and heartbeat-timeout step - leaves each
key's topic set exactly unchanged. -/
theorem c6_topics_preserved (o : WsOptions) (s : WsStore) (ev : WsEvent) (k : String)
    (hnu : ∀ ts, ev ≠ WsEvent.unsubscribeCall ts) :
    (∀ t, t ∈ s.getTopics k → t ∈ (stepFn o s ev).1.getTopics k)
    ∧ ((∀ ts, ev ≠ WsEvent.subscribeCall ts) →
        (stepFn o s ev).1.getTopics k = s.getTopics k) := by
  cases ev with
  | subscribeCall ts =>
    constructor
    · intro t ht
      show t ∈ (WebsocketClient.subscribe o s ts).1.getTopics k
      rw [subscribe_fst]
      exact addTopics_topics_mono o ts s k t ht
    · intro hns
      exact absurd rfl (hns ts)
  | unsubscribeCall ts =>
    exact absurd rfl (hnu ts)
  | closeCall k2 =>
    have he : (stepFn o s (WsEvent.closeCall k2)).1.getTopics k = s.getTopics k :=
      close_getTopics s k2 k
    exact ⟨fun t ht => he ▸ ht, fun _ => he⟩
  | connectDefault toff now sign =>
    have he : (stepFn o s (WsEvent.connectDefault toff now sign)).1.getTopics k = s.getTopics k :=
      connect_getTopics o s defaultWsKey toff now sign k
    exact ⟨fun t ht => he ▸ ht, fun _ => he⟩
  | transportOpen k2 =>
    have he : (stepFn o s (WsEvent.transportOpen k2)).1.getTopics k = s.getTopics k := by
      show (if socketPresent s k2 then WebsocketClient.onWsOpen o (markSocketOpen s k2) k2
          else (s, [])).1.getTopics k = s.getTopics k
      split
      · rw [onWsOpen_getTopics, markSocketOpen_getTopics]
      · rfl
    exact ⟨fun t ht => he ▸ ht, fun _ => he⟩
  | transportClose k2 =>
    have he : (stepFn o s (WsEvent.transportClose k2)).1.getTopics k = s.getTopics k := by
      show (if socketPresent s k2 then WebsocketClient.onWsClose o (markSocketClosed s k2) k2
          else (s, [])).1.getTopics k = s.getTopics k
      split
      · rw [onWsClose_getTopics, markSocketClosed_getTopics]
      · rfl
    exact ⟨fun t ht => he ▸ ht, fun _ => he⟩
  | inboundMessage k2 f =>
    have he : (stepFn o s (WsEvent.inboundMessage k2 f)).1.getTopics k = s.getTopics k := by
      show (if socketPresent s k2 then
          (match WebsocketClient.onWsMessage s k2 f with
            | WebsocketClient.MsgOutcome.ok s2 effs => (s2, effs)
            | WebsocketClient.MsgOutcome.parseError => (s, [])) else (s, [])).1.getTopics k
        = s.getTopics k
      split
      · cases hout : WebsocketClient.onWsMessage s k2 f with
        | ok s2 effs => exact onWsMessage_getTopics s k2 f k s2 effs hout
        | parseError => rfl
      · rfl
    exact ⟨fun t ht => he ▸ ht, fun _ => he⟩
  | pingTick k2 =>
    have he : (stepFn o s (WsEvent.pingTick k2)).1.getTopics k = s.getTopics k := by
      show (if (s.records k2).activePingTimer then WebsocketClient.ping o s k2
          else (s, [])).1.getTopics k = s.getTopics k
      split
      · exact ping_getTopics o s k2 k
      · rfl
    exact ⟨fun t ht => he ▸ ht, fun _ => he⟩
  | pongTimeoutFire k2 =>
    have he : (stepFn o s (WsEvent.pongTimeoutFire k2)).1.getTopics k = s.getTopics k := by
      show (if (s.records k2).activePongTimer then WebsocketClient.pongTimeoutFired s k2
          else (s, [])).1.getTopics k = s.getTopics k
      split
      · exact pongTimeoutFired_getTopics s k2 k
      · rfl
    exact ⟨fun t ht => he ▸ ht, fun _ => he⟩

/-- A store holding one stored topic under the default key. -/
def sTopicFixture : WsStore := WsStore.empty.addTopic defaultWsKey "t1"

theorem c6_topics_preserved_witness :
    "t1" ∈ (stepFn oInv sTopicFixture (WsEvent.closeCall defaultWsKey)).1.getTopics defaultWsKey
      ∧ (stepFn oInv sTopicFixture (WsEvent.closeCall defaultWsKey)).1.getTopics defaultWsKey
          = sTopicFixture.getTopics defaultWsKey := by
  have h := c6_topics_preserved oInv sTopicFixture (WsEvent.closeCall defaultWsKey) defaultWsKey
    (fun ts h2 => WsEvent.noConfusion h2)
  exact ⟨h.1 "t1" (by decide), h.2 (fun ts h2 => WsEvent.noConfusion h2)⟩

/-- Reachable store after connect, open and one ping tick: both the repeating
ping interval and the armed pong timeout are pending at the same time. -/
def sPingedFixture : WsStore :=
  runEvents oInv (WebsocketClient.constructorStore oInv 0 0 sign0).1
    [WsEvent.transportOpen defaultWsKey, WsEvent.pingTick defaultWsKey]

/-- Claim C7, counterexample: in a reachable Connected state right after a
ping tick, the ping interval timer AND the pong timeout are both pending
simultaneously - the claimed exactly-one-of-the-two (XOR) invariant is false
(the source arms the pong timeout without stopping the repeating ping
interval). -/
theorem c7_timers_counterexample :
    Reachable oInv sPingedFixture
    ∧ (sPingedFixture.records defaultWsKey).connectionState = WsConnectionState.connected
    ∧ (sPingedFixture.records defaultWsKey).activePingTimer = true
    ∧ (sPingedFixture.records defaultWsKey).activePongTimer = true :=
  ⟨⟨0, 0, sign0, [WsEvent.transportOpen defaultWsKey, WsEvent.pingTick defaultWsKey], rfl⟩,
    by decide, by decide, by decide⟩

/-- Claim C7, amended: per key, at most one pong timeout is ever outstanding
(the count always equals one exactly when the pong-timeout flag is armed,
because `ping` clears any pending timeout before arming a new one), and a
pending pong timeout implies the ping interval is also pending - the two
timers coexist rather than excluding each other. -/
theorem c7_timers_amended (o : WsOptions) (s : WsStore) (hr : Reachable o s) (k : String) :
    (s.records k).pongCount ≤ 1
    ∧ (s.records k).pongCount = (if (s.records k).activePongTimer then 1 else 0)
    ∧ ((s.records k).activePongTimer = true → (s.records k).activePingTimer = true) := by
  have inv := reachable_sysInv o s hr
  have h1 := inv.pongOk k
  unfold PongOk at h1
  refine ⟨?_, h1, inv.pongImpPing k⟩
  rw [h1]
  split <;> simp

theorem c7_timers_amended_witness :
    (sPingedFixture.records defaultWsKey).pongCount ≤ 1
    ∧ ((sPingedFixture.records defaultWsKey).activePongTimer = true →
        (sPingedFixture.records defaultWsKey).activePingTimer = true) := by
  have h := c7_timers_amended oInv sPingedFixture
    ⟨0, 0, sign0, [WsEvent.transportOpen defaultWsKey, WsEvent.pingTick defaultWsKey], rfl⟩
    defaultWsKey
  exact ⟨h.1, h.2.2⟩

end BybitWs
